import Mathlib

/-!
Shallow embedding of the LibrePCB transactional circuit-consistency engine:
the in-memory netlist model (`ComponentInstance`, `ComponentSignalInstance`,
`NetSignal`), its ERC diagnostic bookkeeping, and the generic reversible
list-insert command.  Definitions are translated from
`src/libs/librepcb/project/circuit/componentinstance.cpp`,
`src/libs/librepcb/project/circuit/componentsignalinstance.cpp` and
`src/libs/librepcb/common/fileio/cmd/cmdlistelementinsert.h`; collaborator
classes whose sources are not part of the excerpt (`NetSignal`, `ErcMsg`,
`ScopeGuardList`, `SerializableObjectList`) are modelled from the spec and
marked as such on their declarations.
-/

namespace LibrePCB

/-- Opaque unique identifier (UUID); `0` plays the role of the null UUID. -/
abbrev Uuid := Nat

/-- Error taxonomy of the code base: `LogicError` is a fatal
programming-contract violation, `RuntimeError` a recoverable, user-facing
operational failure (spec section 7). -/
inductive Err where
  | logicError (msg : String)
  | runtimeError (msg : String)
deriving Repr, DecidableEq

/-- Modelled from the spec: `ErcMsg` (erc/ercmsg.h is not part of the
excerpt).  An ERC diagnostic owns a human-readable text and a visibility
flag, updated in place via `setMsg` / `setVisible`. -/
structure ErcMsg where
  msg : String
  visible : Bool
deriving Repr, DecidableEq

namespace library

/-- Library-defined component signal (librepcb/library/cmp/componentsignal.h,
not part of the excerpt; fields modelled from the spec and from the getters
used by componentsignalinstance.cpp). -/
structure ComponentSignal where
  uuid : Uuid
  name : String
  isRequired : Bool
  isNetSignalNameForced : Bool
  forcedNetName : String
deriving Repr, DecidableEq

/-- One schematic-symbol slot of a symbol variant (glossary:
symbol-variant-item), with its required flag. -/
structure ComponentSymbolVariantItem where
  uuid : Uuid
  isRequired : Bool
deriving Repr, DecidableEq

/-- A symbol variant: an ordered, uniquely-keyed list of symbol items. -/
structure ComponentSymbolVariant where
  uuid : Uuid
  symbolItems : List ComponentSymbolVariantItem
deriving Repr, DecidableEq

/-- Immutable library component definition (signals, symbol variants). -/
structure Component where
  uuid : Uuid
  schematicOnly : Bool
  defaultValue : String
  signals : List ComponentSignal
  symbolVariants : List ComponentSymbolVariant
deriving Repr, DecidableEq

end library

/-- Modelled from the spec: `NetSignal` (netsignal.cpp is not part of the
excerpt).  A named electrical net; per spec section 2 it "tracks the set of
component-signal-instances currently bound to it", so the registry is a
`Finset` of signal identities. -/
structure NetSignal where
  uuid : Uuid
  name : String
  isAddedToCircuit : Bool
  registeredComponentSignals : Finset Uuid
deriving DecidableEq

/-- Modelled from the spec: `NetSignal::registerComponentSignal` can throw a
contract violation (net not added to the circuit, or signal already
registered: the "net-signal-level conflict" of spec section 4.3); otherwise
it adds the signal to the registry. -/
def NetSignal.registerComponentSignal (net : NetSignal) (sigId : Uuid) :
    Except Err NetSignal :=
  if net.isAddedToCircuit = false ∨ sigId ∈ net.registeredComponentSignals then
    .error (.logicError "")
  else
    .ok { net with registeredComponentSignals := insert sigId net.registeredComponentSignals }

/-- Modelled from the spec: `NetSignal::unregisterComponentSignal`; contract
violation if the net is not added or the signal is not registered. -/
def NetSignal.unregisterComponentSignal (net : NetSignal) (sigId : Uuid) :
    Except Err NetSignal :=
  if net.isAddedToCircuit = false ∨ sigId ∉ net.registeredComponentSignals then
    .error (.logicError "")
  else
    .ok { net with registeredComponentSignals := net.registeredComponentSignals.erase sigId }

/-- Register a component signal with the net of the given UUID inside the
circuit's net list (the circuit owns the mapping identifier to NetSignal). -/
def registerInNets : List NetSignal → Uuid → Uuid → Except Err (List NetSignal)
  | [], _, _ => .error (.logicError "")
  | n :: rest, netUuid, sigId =>
    if n.uuid = netUuid then
      match n.registerComponentSignal sigId with
      | .ok n2 => .ok (n2 :: rest)
      | .error e => .error e
    else
      match registerInNets rest netUuid sigId with
      | .ok rest2 => .ok (n :: rest2)
      | .error e => .error e

/-- Unregister a component signal from the net of the given UUID. -/
def unregisterInNets : List NetSignal → Uuid → Uuid → Except Err (List NetSignal)
  | [], _, _ => .error (.logicError "")
  | n :: rest, netUuid, sigId =>
    if n.uuid = netUuid then
      match n.unregisterComponentSignal sigId with
      | .ok n2 => .ok (n2 :: rest)
      | .error e => .error e
    else
      match unregisterInNets rest netUuid sigId with
      | .ok rest2 => .ok (n :: rest2)
      | .error e => .error e

/-- Lookup of a net signal by UUID (`Circuit::getNetSignalByUuid`). -/
def findNet (nets : List NetSignal) (u : Uuid) : Option NetSignal :=
  nets.find? (fun n => n.uuid = u)

/-- Name of the net with the given UUID (`mNetSignal->getName()`); the
empty string if no such net exists (unreachable under the circuit
invariant). -/
def netNameOf (nets : List NetSignal) (u : Uuid) : String :=
  match findNet nets u with
  | some n => n.name
  | none => ""

/-- The signal `sid` is currently registered with the net `u`. -/
def sigRegisteredIn (nets : List NetSignal) (u sid : Uuid) : Prop :=
  ∃ n, findNet nets u = some n ∧ sid ∈ n.registeredComponentSignals

instance (nets : List NetSignal) (u sid : Uuid) :
    Decidable (sigRegisteredIn nets u sid) := by
  unfold sigRegisteredIn
  exact inferInstance

/-- A symbol pin registered with a component signal (si_symbolpin.h is not
part of the excerpt); `hasNetPoint` models `getNetPoint() != nullptr`. -/
structure SI_SymbolPin where
  circuit : Nat
  hasNetPoint : Bool
deriving Repr, DecidableEq

/-- A footprint pad registered with a component signal (bi_footprintpad.h
is not part of the excerpt); `isUsed` models `BI_FootprintPad::isUsed()`. -/
structure BI_FootprintPad where
  circuit : Nat
  isUsed : Bool
deriving Repr, DecidableEq

/-- Evaluation context for a component signal instance: the owning
component instance's name (`mComponentInstance.getName()`) and the
attribute-variable substitution collaborator
(`replaceVariablesWithAttributes`, spec section 6). -/
structure Ctx where
  compName : String
  subst : String → String

/-- One component signal instance: binds one library-defined signal of its
owning component instance to at most one net signal (componentsignalinstance.cpp). -/
structure ComponentSignalInstance where
  compSignal : library.ComponentSignal
  isAddedToCircuit : Bool
  netSignal : Option Uuid
  registeredSymbolPins : List SI_SymbolPin
  registeredFootprintPads : List BI_FootprintPad
  ercMsgUnconnectedRequiredSignal : ErcMsg
  ercMsgForcedNetSignalNameConflict : ErcMsg
deriving DecidableEq

namespace ComponentSignalInstance

/-- `ComponentSignalInstance::isNetSignalNameForced`. -/
def isNetSignalNameForced (sig : ComponentSignalInstance) : Bool :=
  sig.compSignal.isNetSignalNameForced

/-- `ComponentSignalInstance::getForcedNetSignalName`: the library signal's
forced net name after attribute-variable substitution. -/
def getForcedNetSignalName (ctx : Ctx) (sig : ComponentSignalInstance) : String :=
  ctx.subst sig.compSignal.forcedNetName

/-- `ComponentSignalInstance::getRegisteredElementsCount`. -/
def getRegisteredElementsCount (sig : ComponentSignalInstance) : Nat :=
  sig.registeredSymbolPins.length + sig.registeredFootprintPads.length

/-- Modelled from the spec: `ComponentSignalInstance::isUsed` (defined
inline in the header, which is not part of the excerpt): the signal is in
use while any pin or pad is registered with it. -/
def isUsed (sig : ComponentSignalInstance) : Bool :=
  decide (0 < sig.getRegisteredElementsCount)

/-- `ComponentSignalInstance::arePinsOrPadsUsed`: some registered pin has a
net point, or some registered pad is in use. -/
def arePinsOrPadsUsed (sig : ComponentSignalInstance) : Bool :=
  sig.registeredSymbolPins.any (fun pin => pin.hasNetPoint) ||
    sig.registeredFootprintPads.any (fun pad => pad.isUsed)

/-- `ComponentSignalInstance::updateErcMessages`: recompute text and
visibility of both ERC messages from the current model state. -/
def updateErcMessages (ctx : Ctx) (nets : List NetSignal)
    (sig : ComponentSignalInstance) : ComponentSignalInstance :=
  let netName : String :=
    match sig.netSignal with
    | some u => netNameOf nets u
    | none => ""
  let forcedName := getForcedNetSignalName ctx sig
  { sig with
    ercMsgUnconnectedRequiredSignal :=
      { msg := "Unconnected component signal: \"" ++ sig.compSignal.name ++
          "\" from \"" ++ ctx.compName ++ "\"",
        visible := sig.isAddedToCircuit && sig.netSignal.isNone &&
          sig.compSignal.isRequired },
    ercMsgForcedNetSignalNameConflict :=
      { msg := "Signal name conflict: \"" ++ netName ++ "\" != \"" ++
          forcedName ++ "\" (\"" ++ sig.compSignal.name ++ "\" from \"" ++
          ctx.compName ++ "\")",
        visible := sig.isAddedToCircuit && sig.isNetSignalNameForced &&
          (match sig.netSignal with
           | some u => decide (forcedName ≠ netNameOf nets u)
           | none => false) } }

/-- Result of a state-mutating operation on a component signal instance:
possible error, the signal's state and the circuit's net signals after the
call (on error, after rollback). -/
structure Result where
  err : Option Err
  sig : ComponentSignalInstance
  nets : List NetSignal
deriving DecidableEq

/-- `ComponentSignalInstance::setNetSignal` (componentsignalinstance.cpp
lines 150-183).  No-op if unchanged; fatal if not added to circuit; fails
while pins/pads are electrically connected (note: the source raises
`LogicError` here, with a translated user-facing message); otherwise
unregisters from the old net and registers with the new one, restoring the
old binding via the scope guard list if the new registration throws. -/
def setNetSignal (ctx : Ctx) (nets : List NetSignal)
    (sig : ComponentSignalInstance) (netsignal : Option Uuid) : Result :=
  if netsignal = sig.netSignal then
    ⟨none, sig, nets⟩
  else if sig.isAddedToCircuit = false then
    ⟨some (.logicError ""), sig, nets⟩
  else if sig.arePinsOrPadsUsed then
    ⟨some (.logicError ("The net signal of the component signal \"" ++
       ctx.compName ++ ":" ++ sig.compSignal.name ++
       "\" cannot be changed because it is still in use!")), sig, nets⟩
  else
    match sig.netSignal with
    | some old =>
      match unregisterInNets nets old sig.compSignal.uuid with
      | .error e => ⟨some e, sig, nets⟩
      | .ok nets1 =>
        match netsignal with
        | some nu =>
          match registerInNets nets1 nu sig.compSignal.uuid with
          | .ok nets2 =>
            ⟨none, updateErcMessages ctx nets2 { sig with netSignal := netsignal }, nets2⟩
          | .error e =>
            -- scope guard: restore the old binding (rollback failures are
            -- swallowed by ScopeGuardList)
            match registerInNets nets1 old sig.compSignal.uuid with
            | .ok netsR => ⟨some e, sig, netsR⟩
            | .error _ => ⟨some e, sig, nets1⟩
        | none =>
          ⟨none, updateErcMessages ctx nets1 { sig with netSignal := none }, nets1⟩
    | none =>
      match netsignal with
      | some nu =>
        match registerInNets nets nu sig.compSignal.uuid with
        | .ok nets2 =>
          ⟨none, updateErcMessages ctx nets2 { sig with netSignal := netsignal }, nets2⟩
        | .error e => ⟨some e, sig, nets⟩
      | none =>
        ⟨none, updateErcMessages ctx nets { sig with netSignal := none }, nets⟩

/-- `ComponentSignalInstance::addToCircuit` (componentsignalinstance.cpp
lines 189-199): fatal if already added or in use; registers with the bound
net (if any), flips the flag and recomputes ERC messages. -/
def addToCircuit (ctx : Ctx) (nets : List NetSignal)
    (sig : ComponentSignalInstance) : Result :=
  if sig.isAddedToCircuit || sig.isUsed then
    ⟨some (.logicError ""), sig, nets⟩
  else
    match sig.netSignal with
    | some u =>
      match registerInNets nets u sig.compSignal.uuid with
      | .error e => ⟨some e, sig, nets⟩
      | .ok nets2 =>
        ⟨none, updateErcMessages ctx nets2 { sig with isAddedToCircuit := true }, nets2⟩
    | none =>
      ⟨none, updateErcMessages ctx nets { sig with isAddedToCircuit := true }, nets⟩

/-- `ComponentSignalInstance::removeFromCircuit` (componentsignalinstance.cpp
lines 201-216): fatal if not added; recoverable failure if in use;
unregisters from the bound net (if any), flips the flag and recomputes ERC
messages. -/
def removeFromCircuit (ctx : Ctx) (nets : List NetSignal)
    (sig : ComponentSignalInstance) : Result :=
  if sig.isAddedToCircuit = false then
    ⟨some (.logicError ""), sig, nets⟩
  else if sig.isUsed then
    ⟨some (.runtimeError ("The component \"" ++ ctx.compName ++
       "\" cannot be removed because it is still in use!")), sig, nets⟩
  else
    match sig.netSignal with
    | some u =>
      match unregisterInNets nets u sig.compSignal.uuid with
      | .error e => ⟨some e, sig, nets⟩
      | .ok nets2 =>
        ⟨none, updateErcMessages ctx nets2 { sig with isAddedToCircuit := false }, nets2⟩
    | none =>
      ⟨none, updateErcMessages ctx nets { sig with isAddedToCircuit := false }, nets⟩

end ComponentSignalInstance

/-- A schematic symbol placement (si_symbol.h is not part of the excerpt):
carries its circuit, the symbol-variant-item it instantiates, and the
schematic sheet it is placed on. -/
structure SI_Symbol where
  circuit : Nat
  compSymbVarItemUuid : Uuid
  schematic : Nat
deriving Repr, DecidableEq

/-- A board device placement (bi_device.h is not part of the excerpt). -/
structure BI_Device where
  circuit : Nat
  deviceId : Nat
deriving Repr, DecidableEq

/-- One placed occurrence of a library component definition
(componentinstance.cpp). -/
structure ComponentInstance where
  circuit : Nat
  uuid : Uuid
  name : String
  value : String
  libComponent : library.Component
  compSymbVar : library.ComponentSymbolVariant
  isAddedToCircuit : Bool
  signals : List ComponentSignalInstance
  registeredSymbols : List (Uuid × SI_Symbol)
  registeredDevices : List BI_Device
  ercMsgUnplacedRequiredSymbols : ErcMsg
  ercMsgUnplacedOptionalSymbols : ErcMsg
deriving DecidableEq

namespace ComponentInstance

/-- `ComponentInstance::getUnplacedSymbolsCount` (total item count minus
registered count). -/
def getUnplacedSymbolsCount (ci : ComponentInstance) : Int :=
  (ci.compSymbVar.symbolItems.length : Int) - (ci.registeredSymbols.length : Int)

/-- `ComponentInstance::getUnplacedRequiredSymbolsCount` (componentinstance.cpp
lines 155-164): count the required symbol-variant items whose slot is not
occupied by a registered symbol. -/
def getUnplacedRequiredSymbolsCount (ci : ComponentInstance) : Nat :=
  (ci.compSymbVar.symbolItems.filter
    (fun it => it.isRequired &&
      !(ci.registeredSymbols.any (fun p => p.1 == it.uuid)))).length

/-- `ComponentInstance::getUnplacedOptionalSymbolsCount` (componentinstance.cpp
lines 166-175). -/
def getUnplacedOptionalSymbolsCount (ci : ComponentInstance) : Nat :=
  (ci.compSymbVar.symbolItems.filter
    (fun it => !it.isRequired &&
      !(ci.registeredSymbols.any (fun p => p.1 == it.uuid)))).length

/-- `ComponentInstance::getRegisteredElementsCount`. -/
def getRegisteredElementsCount (ci : ComponentInstance) : Nat :=
  ci.registeredSymbols.length + ci.registeredDevices.length

/-- `ComponentInstance::isUsed`: some symbol or device is registered, or
some owned signal instance is in use. -/
def isUsed (ci : ComponentInstance) : Bool :=
  decide (0 < ci.getRegisteredElementsCount) ||
    ci.signals.any (fun s => s.isUsed)

/-- `ComponentInstance::updateErcMessages` (componentinstance.cpp lines
379-391): recompute text and visibility of the two unplaced-symbols ERC
messages from the derived counters. -/
def updateErcMessages (ci : ComponentInstance) : ComponentInstance :=
  let required := ci.getUnplacedRequiredSymbolsCount
  let optional := ci.getUnplacedOptionalSymbolsCount
  { ci with
    ercMsgUnplacedRequiredSymbols :=
      { msg := "Unplaced required symbols of component \"" ++ ci.name ++
          "\": " ++ toString required,
        visible := ci.isAddedToCircuit && decide (0 < required) },
    ercMsgUnplacedOptionalSymbols :=
      { msg := "Unplaced optional symbols of component \"" ++ ci.name ++
          "\": " ++ toString optional,
        visible := ci.isAddedToCircuit && decide (0 < optional) } }

end ComponentInstance

/-- Result of iterating `addToCircuit` / `removeFromCircuit` over the owned
signal instances: possible error, the signal states and the circuit's nets
after the iteration (on error, after the scope-guard rollback). -/
structure SigsResult where
  err : Option Err
  sigs : List ComponentSignalInstance
  nets : List NetSignal
deriving DecidableEq

/-- The signal-registration loop of `ComponentInstance::addToCircuit`
(componentinstance.cpp lines 240-244): call `addToCircuit` on each signal,
pushing `removeFromCircuit` onto the `ScopeGuardList`; on a failure the
guards run in reverse registration order (rollback failures are swallowed
by `ScopeGuardList`, modelled from spec section 4.2). -/
def addSignalsLoop (ctx : Ctx) : List NetSignal → List ComponentSignalInstance → SigsResult
  | nets, [] => ⟨none, [], nets⟩
  | nets, s :: rest =>
    match ComponentSignalInstance.addToCircuit ctx nets s with
    | ⟨some e, s1, nets1⟩ => ⟨some e, s1 :: rest, nets1⟩
    | ⟨none, s1, nets1⟩ =>
      match addSignalsLoop ctx nets1 rest with
      | ⟨none, sigs2, nets2⟩ => ⟨none, s1 :: sigs2, nets2⟩
      | ⟨some e, sigs2, nets2⟩ =>
        match ComponentSignalInstance.removeFromCircuit ctx nets2 s1 with
        | ⟨_, s3, nets3⟩ => ⟨some e, s3 :: sigs2, nets3⟩

/-- The signal-unregistration loop of `ComponentInstance::removeFromCircuit`
(componentinstance.cpp lines 260-264), with `addToCircuit` as the
compensating action. -/
def removeSignalsLoop (ctx : Ctx) : List NetSignal → List ComponentSignalInstance → SigsResult
  | nets, [] => ⟨none, [], nets⟩
  | nets, s :: rest =>
    match ComponentSignalInstance.removeFromCircuit ctx nets s with
    | ⟨some e, s1, nets1⟩ => ⟨some e, s1 :: rest, nets1⟩
    | ⟨none, s1, nets1⟩ =>
      match removeSignalsLoop ctx nets1 rest with
      | ⟨none, sigs2, nets2⟩ => ⟨none, s1 :: sigs2, nets2⟩
      | ⟨some e, sigs2, nets2⟩ =>
        match ComponentSignalInstance.addToCircuit ctx nets2 s1 with
        | ⟨_, s3, nets3⟩ => ⟨some e, s3 :: sigs2, nets3⟩

/-- Result of a state-mutating operation on a component instance. -/
structure CompResult where
  err : Option Err
  comp : ComponentInstance
  nets : List NetSignal
deriving DecidableEq

namespace ComponentInstance

/-- `ComponentInstance::addToCircuit` (componentinstance.cpp lines 235-248):
fatal if already added or in use; registers every owned signal instance
with its bound net via the scope-guard loop; on success flips the flag and
recomputes ERC visibility. -/
def addToCircuit (subst : String → String) (nets : List NetSignal)
    (ci : ComponentInstance) : CompResult :=
  if ci.isAddedToCircuit || ci.isUsed then
    ⟨some (.logicError ""), ci, nets⟩
  else
    let r := addSignalsLoop ⟨ci.name, subst⟩ nets ci.signals
    match r.err with
    | some e => ⟨some e, { ci with signals := r.sigs }, r.nets⟩
    | none =>
      ⟨none, ComponentInstance.updateErcMessages
        { ci with signals := r.sigs, isAddedToCircuit := true }, r.nets⟩

/-- `ComponentInstance::removeFromCircuit` (componentinstance.cpp lines
250-268): fatal if not added; recoverable user-facing failure if in use;
otherwise unregisters every signal via the scope-guard loop, flips the flag
and recomputes ERC visibility. -/
def removeFromCircuit (subst : String → String) (nets : List NetSignal)
    (ci : ComponentInstance) : CompResult :=
  if ci.isAddedToCircuit = false then
    ⟨some (.logicError ""), ci, nets⟩
  else if ci.isUsed then
    ⟨some (.runtimeError ("The component \"" ++ ci.name ++
       "\" cannot be removed because it is still in use!")), ci, nets⟩
  else
    let r := removeSignalsLoop ⟨ci.name, subst⟩ nets ci.signals
    match r.err with
    | some e => ⟨some e, { ci with signals := r.sigs }, r.nets⟩
    | none =>
      ⟨none, ComponentInstance.updateErcMessages
        { ci with signals := r.sigs, isAddedToCircuit := false }, r.nets⟩

/-- `ComponentInstance::registerSymbol` (componentinstance.cpp lines
270-297): fatal if not added or wrong circuit; recoverable failures for an
item not on the chosen variant, an occupied slot, or a symbol on a
different schematic than the already-registered ones; otherwise inserts the
registration and recomputes ERC messages. -/
def registerSymbol (ci : ComponentInstance) (symbol : SI_Symbol) :
    Except Err ComponentInstance :=
  if ci.isAddedToCircuit = false ∨ symbol.circuit ≠ ci.circuit then
    .error (.logicError "")
  else if (ci.compSymbVar.symbolItems.find?
      (fun it => it.uuid == symbol.compSymbVarItemUuid)).isNone then
    .error (.runtimeError ("Invalid symbol item in circuit: \"" ++
      toString symbol.compSymbVarItemUuid ++ "\"."))
  else if ci.registeredSymbols.any (fun p => p.1 == symbol.compSymbVarItemUuid) then
    .error (.runtimeError ("Symbol item UUID already exists in circuit: \"" ++
      toString symbol.compSymbVarItemUuid ++ "\"."))
  else
    match ci.registeredSymbols with
    | [] =>
      .ok (ComponentInstance.updateErcMessages
        { ci with registeredSymbols := [(symbol.compSymbVarItemUuid, symbol)] })
    | p :: _ =>
      if symbol.schematic ≠ p.2.schematic then
        .error (.runtimeError
          "All symbols of a component must be placed in the same schematic.")
      else
        .ok (ComponentInstance.updateErcMessages
          { ci with registeredSymbols :=
              ci.registeredSymbols ++ [(symbol.compSymbVarItemUuid, symbol)] })

/-- `ComponentInstance::unregisterSymbol` (componentinstance.cpp lines
299-309). -/
def unregisterSymbol (ci : ComponentInstance) (symbol : SI_Symbol) :
    Except Err ComponentInstance :=
  if ci.isAddedToCircuit = false ∨
      ¬((symbol.compSymbVarItemUuid, symbol) ∈ ci.registeredSymbols) then
    .error (.logicError "")
  else
    .ok (ComponentInstance.updateErcMessages
      { ci with registeredSymbols :=
          ci.registeredSymbols.filter (fun p => p.1 ≠ symbol.compSymbVarItemUuid) })

/-- `ComponentInstance::registerDevice` (componentinstance.cpp lines
311-320): fatal if not added, wrong circuit, already registered, or the
library component is schematic-only. -/
def registerDevice (ci : ComponentInstance) (device : BI_Device) :
    Except Err ComponentInstance :=
  if ci.isAddedToCircuit = false ∨ device.circuit ≠ ci.circuit ∨
      device ∈ ci.registeredDevices ∨ ci.libComponent.schematicOnly then
    .error (.logicError "")
  else
    .ok (ComponentInstance.updateErcMessages
      { ci with registeredDevices := ci.registeredDevices ++ [device] })

/-- `ComponentInstance::unregisterDevice` (componentinstance.cpp lines
322-329). -/
def unregisterDevice (ci : ComponentInstance) (device : BI_Device) :
    Except Err ComponentInstance :=
  if ci.isAddedToCircuit = false ∨ ¬(device ∈ ci.registeredDevices) then
    .error (.logicError "")
  else
    .ok (ComponentInstance.updateErcMessages
      { ci with registeredDevices := ci.registeredDevices.erase device })

end ComponentInstance

/-- One `signal_map` child element of a serialized component instance:
the component-signal UUID and the optionally bound net signal (a null
netsignal UUID is modelled as `none`). -/
structure SignalMapEntry where
  compSignal : Uuid
  netsignal : Option Uuid
deriving Repr, DecidableEq

/-- The DOM element consumed by the deserializing `ComponentInstance`
constructor (componentinstance.cpp lines 46-86). -/
structure ComponentInstanceDom where
  uuid : Uuid
  name : String
  value : String
  component : Uuid
  symbolVariant : Uuid
  signalMap : List SignalMapEntry
deriving Repr, DecidableEq

/-- Shared tail of both `ComponentSignalInstance` constructors
(`init()`): the two ERC messages are created and immediately recomputed. -/
def mkComponentSignalInstance (ctx : Ctx) (nets : List NetSignal)
    (cs : library.ComponentSignal) (ns : Option Uuid) : ComponentSignalInstance :=
  ComponentSignalInstance.updateErcMessages ctx nets
    { compSignal := cs, isAddedToCircuit := false, netSignal := ns,
      registeredSymbolPins := [], registeredFootprintPads := [],
      ercMsgUnconnectedRequiredSignal := ⟨"", false⟩,
      ercMsgForcedNetSignalNameConflict := ⟨"", false⟩ }

/-- The deserializing `ComponentSignalInstance` constructor
(componentsignalinstance.cpp lines 47-65): resolve the library signal
(`get` can throw) and the bound net signal (invalid UUID is a recoverable
error); then `init()`. -/
def ComponentSignalInstance.fromDom (ctx : Ctx) (nets : List NetSignal)
    (libCmp : library.Component) (entry : SignalMapEntry) :
    Except Err ComponentSignalInstance :=
  match libCmp.signals.find? (fun s => s.uuid == entry.compSignal) with
  | none =>
    .error (.runtimeError ("The signal \"" ++ toString entry.compSignal ++
      "\" does not exist in the component."))
  | some cs =>
    match entry.netsignal with
    | some nu =>
      if (findNet nets nu).isNone then
        .error (.runtimeError ("Invalid netsignal UUID: \"" ++ toString nu ++ "\""))
      else
        .ok (mkComponentSignalInstance ctx nets cs (some nu))
    | none => .ok (mkComponentSignalInstance ctx nets cs none)

/-- The signal-map loading loop of the deserializing `ComponentInstance`
constructor (componentinstance.cpp lines 68-76): construct each signal
instance and reject a component-signal UUID that is defined twice. -/
def loadSignalMap (ctx : Ctx) (nets : List NetSignal) (libCmp : library.Component) :
    List SignalMapEntry → List ComponentSignalInstance →
    Except Err (List ComponentSignalInstance)
  | [], acc => .ok acc
  | entry :: rest, acc =>
    match ComponentSignalInstance.fromDom ctx nets libCmp entry with
    | .error e => .error e
    | .ok s =>
      if acc.any (fun t => t.compSignal.uuid == s.compSignal.uuid) then
        .error (.runtimeError ("The signal with the UUID \"" ++
          toString s.compSignal.uuid ++ "\" is defined multiple times."))
      else
        loadSignalMap ctx nets libCmp rest (acc ++ [s])

/-- The deserializing `ComponentInstance` constructor (componentinstance.cpp
lines 46-86): resolve the library component and symbol variant, load the
signal map (duplicate check per entry, then the signal-count check), then
`init()` (ERC messages recomputed; `checkAttributesValidity` raises a fatal
error on a null UUID or empty name).  The attribute list load is kept
abstract as it cannot fail on the fields modelled here. -/
def ComponentInstance.fromDom (subst : String → String) (circuitId : Nat)
    (lib : List library.Component) (nets : List NetSignal)
    (dom : ComponentInstanceDom) : Except Err ComponentInstance :=
  match lib.find? (fun c => c.uuid == dom.component) with
  | none =>
    .error (.runtimeError ("The component with the UUID \"" ++
      toString dom.component ++ "\" does not exist in the project's library!"))
  | some cmp =>
    match cmp.symbolVariants.find? (fun v => v.uuid == dom.symbolVariant) with
    | none =>
      .error (.runtimeError ("No symbol variant with the UUID \"" ++
        toString dom.symbolVariant ++ "\" found."))
    | some symbVar =>
      match loadSignalMap ⟨dom.name, subst⟩ nets cmp dom.signalMap [] with
      | .error e => .error e
      | .ok sigs =>
        if sigs.length ≠ cmp.signals.length then
          .error (.runtimeError ("The signal count of the component instance \"" ++
            toString dom.uuid ++ "\" does not match with the signal count of " ++
            "the component \"" ++ toString cmp.uuid ++ "\"."))
        else if dom.uuid = 0 ∨ dom.name = "" then
          .error (.logicError "")
        else
          .ok (ComponentInstance.updateErcMessages
            { circuit := circuitId, uuid := dom.uuid, name := dom.name,
              value := dom.value, libComponent := cmp, compSymbVar := symbVar,
              isAddedToCircuit := false, signals := sigs,
              registeredSymbols := [], registeredDevices := [],
              ercMsgUnplacedRequiredSymbols := ⟨"", false⟩,
              ercMsgUnplacedOptionalSymbols := ⟨"", false⟩ })

/-- Modelled from the spec: `SerializableObjectList::insert`
(serializableobjectlist.h is not part of the excerpt).  Inserts one element
at the given position of the ordered collection and returns the index it
ended up at; an out-of-range index appends (spec section 4.5 resolves
"append" to a concrete index). -/
def solInsert {α : Type} (l : List α) (index : Int) (e : α) : List α × Int :=
  if 0 ≤ index ∧ index ≤ (l.length : Int) then
    (l.insertIdx index.toNat e, index)
  else
    (l ++ [e], (l.length : Int))

/-- Modelled from the spec: `SerializableObjectList::remove` removes the
element at the given position. -/
def solRemove {α : Type} (l : List α) (index : Int) : List α :=
  l.eraseIdx index.toNat

/-- The mutable state touched by a `CmdListElementInsert`: the referenced
list and the command's recorded index `mIndex`. -/
structure CmdState (α : Type) where
  list : List α
  index : Int
deriving Repr, DecidableEq

namespace CmdListElementInsert

/-- `CmdListElementInsert::performRedo` (cmdlistelementinsert.h lines
75-77): `mIndex = mList.insert(mIndex, mElement)`. -/
def performRedo {α : Type} (e : α) (st : CmdState α) : CmdState α :=
  let p := solInsert st.list st.index e
  ⟨p.1, p.2⟩

/-- `CmdListElementInsert::performExecute` (cmdlistelementinsert.h lines
63-67): resolve a negative index to the list's length (append), then redo. -/
def performExecute {α : Type} (e : α) (st : CmdState α) : CmdState α :=
  let st1 := if st.index < 0 then { st with index := (st.list.length : Int) } else st
  performRedo e st1

/-- `CmdListElementInsert::performUndo` (cmdlistelementinsert.h lines
70-72): `mList.remove(mIndex)`. -/
def performUndo {α : Type} (st : CmdState α) : CmdState α :=
  ⟨solRemove st.list st.index, st.index⟩

end CmdListElementInsert

/-- ERC-freshness invariant of spec section 4.4: a signal instance's stored
ERC messages agree with what `updateErcMessages` would recompute from the
current model state (established at construction and after every mutation;
"no stale diagnostic is ever visible"). -/
def ercFresh (ctx : Ctx) (nets : List NetSignal) (s : ComponentSignalInstance) : Prop :=
  ComponentSignalInstance.updateErcMessages ctx nets s = s

/-- Number of required symbol-variant items of the chosen variant (spec
vocabulary for the C6 formula). -/
def requiredItemsCount (ci : ComponentInstance) : Nat :=
  (ci.compSymbVar.symbolItems.filter (fun it => it.isRequired)).length

/-- Number of required symbol-variant items whose slot is occupied by a
registered symbol (spec vocabulary for the C6 formula). -/
def registeredRequiredItemsCount (ci : ComponentInstance) : Nat :=
  (ci.compSymbVar.symbolItems.filter
    (fun it => it.isRequired && ci.registeredSymbols.any (fun p => p.1 == it.uuid))).length

/-- Concrete fixture: identity attribute substitution. -/
def idSubst : String → String := fun s => s

/-- Concrete fixture for C2: evaluation context. -/
def c2Ctx : Ctx := ⟨"U2", idSubst⟩

/-- Concrete fixture for C2: a signal instance that is added to the
circuit, has a forced net name, and is bound to no net. -/
def c2Sig : ComponentSignalInstance :=
  { compSignal := ⟨21, "EN", false, true, "VCC"⟩, isAddedToCircuit := true,
    netSignal := none, registeredSymbolPins := [], registeredFootprintPads := [],
    ercMsgUnconnectedRequiredSignal := ⟨"", false⟩,
    ercMsgForcedNetSignalNameConflict := ⟨"", false⟩ }

/-- Concrete fixture for C3: a library component. -/
def c3Cmp : library.Component := ⟨30, false, "", [], [⟨40, []⟩]⟩

/-- Concrete fixture for C3: a component instance that is added to the
circuit and has one registered device. -/
def c3Ci : ComponentInstance :=
  { circuit := 1, uuid := 300, name := "R1", value := "", libComponent := c3Cmp,
    compSymbVar := ⟨40, []⟩, isAddedToCircuit := true, signals := [],
    registeredSymbols := [], registeredDevices := [⟨1, 77⟩],
    ercMsgUnplacedRequiredSymbols := ⟨"", false⟩,
    ercMsgUnplacedOptionalSymbols := ⟨"", false⟩ }

/-- Concrete fixture for C4: evaluation context. -/
def c4Ctx : Ctx := ⟨"U4", idSubst⟩

/-- Concrete fixture for C4: the circuit's net signals. -/
def c4Nets : List NetSignal := [⟨5, "N", true, {11}⟩]

/-- Concrete fixture for C4: a signal instance added to the circuit, bound
to net 5, with one registered symbol pin that has a net point (so it is
electrically connected). -/
def c4Sig : ComponentSignalInstance :=
  { compSignal := ⟨11, "S", true, false, ""⟩, isAddedToCircuit := true,
    netSignal := some 5, registeredSymbolPins := [⟨1, true⟩],
    registeredFootprintPads := [],
    ercMsgUnconnectedRequiredSignal := ⟨"", false⟩,
    ercMsgForcedNetSignalNameConflict := ⟨"", false⟩ }

/-- Concrete fixture for C7: the chosen symbol variant with two required
items. -/
def c7Var : library.ComponentSymbolVariant := ⟨40, [⟨41, true⟩, ⟨42, true⟩]⟩

/-- Concrete fixture for C7: a library component. -/
def c7Cmp : library.Component := ⟨30, false, "", [], [c7Var]⟩

/-- Concrete fixture for C7: the symbol already registered, placed on
schematic 1. -/
def c7Sym1 : SI_Symbol := ⟨1, 41, 1⟩

/-- Concrete fixture for C7: a second symbol placed on schematic 2. -/
def c7Sym2 : SI_Symbol := ⟨1, 42, 2⟩

/-- Concrete fixture for C7: a component instance with one registered
symbol on schematic 1. -/
def c7Ci : ComponentInstance :=
  { circuit := 1, uuid := 700, name := "U7", value := "", libComponent := c7Cmp,
    compSymbVar := c7Var, isAddedToCircuit := true, signals := [],
    registeredSymbols := [(41, c7Sym1)], registeredDevices := [],
    ercMsgUnplacedRequiredSymbols := ⟨"", false⟩,
    ercMsgUnplacedOptionalSymbols := ⟨"", false⟩ }

/-- Concrete fixture for C10: evaluation context. -/
def c10Ctx : Ctx := ⟨"U10", idSubst⟩

/-- Concrete fixture for C10: a signal instance that is not added to the
circuit. -/
def c10Sig : ComponentSignalInstance :=
  { compSignal := ⟨11, "S", false, false, ""⟩, isAddedToCircuit := false,
    netSignal := none, registeredSymbolPins := [], registeredFootprintPads := [],
    ercMsgUnconnectedRequiredSignal := ⟨"", false⟩,
    ercMsgForcedNetSignalNameConflict := ⟨"", false⟩ }

/-- Concrete fixture for C1: the circuit's net signals. -/
def c1Nets : List NetSignal := [⟨5, "N", true, ∅⟩]

/-- Concrete fixture for C1: evaluation context of the component's
signals. -/
def c1Ctx : Ctx := ⟨"U1", idSubst⟩

/-- Concrete fixture for C1: a signal instance bound to net 5, constructed
through `init()` so its ERC messages are fresh. -/
def c1SigA : ComponentSignalInstance :=
  mkComponentSignalInstance c1Ctx c1Nets ⟨11, "A", true, false, ""⟩ (some 5)

/-- Concrete fixture for C1: an unbound signal instance. -/
def c1SigB : ComponentSignalInstance :=
  mkComponentSignalInstance c1Ctx c1Nets ⟨12, "B", false, false, ""⟩ none

/-- Concrete fixture for C1: the chosen symbol variant. -/
def c1Var : library.ComponentSymbolVariant := ⟨40, [⟨41, true⟩]⟩

/-- Concrete fixture for C1: a library component with two signals. -/
def c1Cmp : library.Component :=
  ⟨30, false, "", [⟨11, "A", true, false, ""⟩, ⟨12, "B", false, false, ""⟩], [c1Var]⟩

/-- Concrete fixture for C1: a detached component instance owning the two
signal instances. -/
def c1Ci : ComponentInstance :=
  { circuit := 1, uuid := 7, name := "U1", value := "", libComponent := c1Cmp,
    compSymbVar := c1Var, isAddedToCircuit := false, signals := [c1SigA, c1SigB],
    registeredSymbols := [], registeredDevices := [],
    ercMsgUnplacedRequiredSymbols := ⟨"", false⟩,
    ercMsgUnplacedOptionalSymbols := ⟨"", false⟩ }

/-- Concrete fixture for C9: a library component with two signals. -/
def c9Cmp : library.Component :=
  ⟨30, false, "", [⟨11, "A", true, false, ""⟩, ⟨12, "B", false, false, ""⟩], [⟨40, []⟩]⟩

/-- Concrete fixture for C9: the project library. -/
def c9Lib : List library.Component := [c9Cmp]

/-- Concrete fixture for C9: the circuit's net signals. -/
def c9Nets : List NetSignal := [⟨5, "N", false, ∅⟩]

/-- Concrete fixture for C9: a serialized component instance with a
well-formed signal map. -/
def c9Dom : ComponentInstanceDom := ⟨7, "U9", "", 30, 40, [⟨11, some 5⟩, ⟨12, none⟩]⟩

theorem netNameOf_cons (n : NetSignal) (rest : List NetSignal) (u : Uuid) :
    netNameOf (n :: rest) u = if n.uuid = u then n.name else netNameOf rest u := by
  by_cases h : n.uuid = u
  · simp only [netNameOf, findNet, if_pos h]
    rw [List.find?_cons_of_pos _ (by simp [h])]
  · simp only [netNameOf, findNet, if_neg h]
    rw [List.find?_cons_of_neg _ (by simp [h])]

theorem registerInNets_unregisterInNets (nets nets' : List NetSignal)
    (nu sid : Uuid) (h : registerInNets nets nu sid = .ok nets') :
    unregisterInNets nets' nu sid = .ok nets := by
  induction nets generalizing nets' with
  | nil => simp [registerInNets] at h
  | cons n rest ih =>
    by_cases hu : n.uuid = nu
    · simp only [registerInNets, if_pos hu] at h
      unfold NetSignal.registerComponentSignal at h
      by_cases hg : n.isAddedToCircuit = false ∨ sid ∈ n.registeredComponentSignals
      · simp [hg] at h
      · simp only [if_neg hg] at h
        cases h
        push_neg at hg
        simp only [unregisterInNets, if_pos hu, NetSignal.unregisterComponentSignal]
        rw [if_neg (by simp [hg.1, Finset.mem_insert_self])]
        rw [Finset.erase_insert hg.2]
    · simp only [registerInNets, if_neg hu] at h
      cases hrest : registerInNets rest nu sid with
      | error e => simp [hrest] at h
      | ok rest2 =>
        simp only [hrest] at h
        cases h
        simp [unregisterInNets, if_neg hu, ih rest2 hrest]

theorem unregisterInNets_registerInNets (nets nets' : List NetSignal)
    (nu sid : Uuid) (h : unregisterInNets nets nu sid = .ok nets') :
    registerInNets nets' nu sid = .ok nets := by
  induction nets generalizing nets' with
  | nil => simp [unregisterInNets] at h
  | cons n rest ih =>
    by_cases hu : n.uuid = nu
    · simp only [unregisterInNets, if_pos hu] at h
      unfold NetSignal.unregisterComponentSignal at h
      by_cases hg : n.isAddedToCircuit = false ∨ sid ∉ n.registeredComponentSignals
      · simp [hg] at h
      · simp only [if_neg hg] at h
        cases h
        push_neg at hg
        simp only [registerInNets, if_pos hu, NetSignal.registerComponentSignal]
        rw [if_neg (by simp [hg.1, Finset.not_mem_erase])]
        rw [Finset.insert_erase hg.2]
    · simp only [unregisterInNets, if_neg hu] at h
      cases hrest : unregisterInNets rest nu sid with
      | error e => simp [hrest] at h
      | ok rest2 =>
        simp only [hrest] at h
        cases h
        simp [registerInNets, if_neg hu, ih rest2 hrest]

theorem registerInNets_netNameOf (nets nets' : List NetSignal)
    (nu sid : Uuid) (h : registerInNets nets nu sid = .ok nets') :
    ∀ u, netNameOf nets' u = netNameOf nets u := by
  induction nets generalizing nets' with
  | nil => simp [registerInNets] at h
  | cons n rest ih =>
    intro u
    by_cases hu : n.uuid = nu
    · simp only [registerInNets, if_pos hu] at h
      unfold NetSignal.registerComponentSignal at h
      by_cases hg : n.isAddedToCircuit = false ∨ sid ∈ n.registeredComponentSignals
      · simp [hg] at h
      · simp only [if_neg hg] at h
        cases h
        rw [netNameOf_cons, netNameOf_cons]
    · simp only [registerInNets, if_neg hu] at h
      cases hrest : registerInNets rest nu sid with
      | error e => simp [hrest] at h
      | ok rest2 =>
        simp only [hrest] at h
        cases h
        rw [netNameOf_cons, netNameOf_cons, ih rest2 hrest u]

theorem unregisterInNets_netNameOf (nets nets' : List NetSignal)
    (nu sid : Uuid) (h : unregisterInNets nets nu sid = .ok nets') :
    ∀ u, netNameOf nets' u = netNameOf nets u := by
  induction nets generalizing nets' with
  | nil => simp [unregisterInNets] at h
  | cons n rest ih =>
    intro u
    by_cases hu : n.uuid = nu
    · simp only [unregisterInNets, if_pos hu] at h
      unfold NetSignal.unregisterComponentSignal at h
      by_cases hg : n.isAddedToCircuit = false ∨ sid ∉ n.registeredComponentSignals
      · simp [hg] at h
      · simp only [if_neg hg] at h
        cases h
        rw [netNameOf_cons, netNameOf_cons]
    · simp only [unregisterInNets, if_neg hu] at h
      cases hrest : unregisterInNets rest nu sid with
      | error e => simp [hrest] at h
      | ok rest2 =>
        simp only [hrest] at h
        cases h
        rw [netNameOf_cons, netNameOf_cons, ih rest2 hrest u]

theorem sigUpdateErc_compSignal (ctx : Ctx) (nets : List NetSignal)
    (s : ComponentSignalInstance) :
    (ComponentSignalInstance.updateErcMessages ctx nets s).compSignal = s.compSignal := rfl

theorem sigUpdateErc_isAddedToCircuit (ctx : Ctx) (nets : List NetSignal)
    (s : ComponentSignalInstance) :
    (ComponentSignalInstance.updateErcMessages ctx nets s).isAddedToCircuit =
      s.isAddedToCircuit := rfl

theorem sigUpdateErc_netSignal (ctx : Ctx) (nets : List NetSignal)
    (s : ComponentSignalInstance) :
    (ComponentSignalInstance.updateErcMessages ctx nets s).netSignal = s.netSignal := rfl

theorem sigUpdateErc_pins (ctx : Ctx) (nets : List NetSignal)
    (s : ComponentSignalInstance) :
    (ComponentSignalInstance.updateErcMessages ctx nets s).registeredSymbolPins =
      s.registeredSymbolPins := rfl

theorem sigUpdateErc_pads (ctx : Ctx) (nets : List NetSignal)
    (s : ComponentSignalInstance) :
    (ComponentSignalInstance.updateErcMessages ctx nets s).registeredFootprintPads =
      s.registeredFootprintPads := rfl

theorem sigUpdateErc_isUsed (ctx : Ctx) (nets : List NetSignal)
    (s : ComponentSignalInstance) :
    (ComponentSignalInstance.updateErcMessages ctx nets s).isUsed = s.isUsed := rfl

theorem sigUpdateErc_congr (ctx : Ctx) (nets : List NetSignal)
    (s s' : ComponentSignalInstance)
    (h1 : s.compSignal = s'.compSignal)
    (h2 : s.isAddedToCircuit = s'.isAddedToCircuit)
    (h3 : s.netSignal = s'.netSignal)
    (h4 : s.registeredSymbolPins = s'.registeredSymbolPins)
    (h5 : s.registeredFootprintPads = s'.registeredFootprintPads) :
    ComponentSignalInstance.updateErcMessages ctx nets s =
      ComponentSignalInstance.updateErcMessages ctx nets s' := by
  cases s
  cases s'
  simp only at h1 h2 h3 h4 h5
  subst h1 h2 h3 h4 h5
  rfl

theorem sigUpdateErc_names (ctx : Ctx) (nets nets' : List NetSignal)
    (s : ComponentSignalInstance)
    (h : ∀ u, netNameOf nets' u = netNameOf nets u) :
    ComponentSignalInstance.updateErcMessages ctx nets' s =
      ComponentSignalInstance.updateErcMessages ctx nets s := by
  unfold ComponentSignalInstance.updateErcMessages
  cases hns : s.netSignal with
  | none => rfl
  | some u => simp only [h u]

theorem ercFresh_transport (ctx : Ctx) (nets nets' : List NetSignal)
    (s : ComponentSignalInstance) (hf : ercFresh ctx nets s)
    (h : ∀ u, netNameOf nets' u = netNameOf nets u) : ercFresh ctx nets' s := by
  unfold ercFresh
  rw [sigUpdateErc_names ctx nets nets' s h]
  exact hf

/-- C8: for every `ComponentSignalInstance`, calling `setNetSignal` with
the currently bound net signal (including null when unbound) is a complete
no-op: no error, no state change, no net-registry change, hence no change
events and no change to any ERC message text or visibility. -/
theorem setNetSignal_noop (ctx : Ctx) (nets : List NetSignal)
    (sig : ComponentSignalInstance) :
    ComponentSignalInstance.setNetSignal ctx nets sig sig.netSignal =
      ⟨none, sig, nets⟩ := by
  unfold ComponentSignalInstance.setNetSignal
  simp

/-- C10: for a `ComponentSignalInstance` that is NOT added to the circuit,
`setNetSignal` with the currently bound net signal still succeeds without
any state change, because the unchanged-value check precedes the
added-to-circuit precondition; the fatal not-added contract violation is
raised exactly when the requested net signal differs from the current
one. -/
theorem setNetSignal_unchanged_precedes_addedCheck (ctx : Ctx)
    (nets : List NetSignal) (sig : ComponentSignalInstance)
    (h : sig.isAddedToCircuit = false) :
    ComponentSignalInstance.setNetSignal ctx nets sig sig.netSignal =
      ⟨none, sig, nets⟩ ∧
    ∀ ns, ns ≠ sig.netSignal →
      (ComponentSignalInstance.setNetSignal ctx nets sig ns).err =
        some (.logicError "") := by
  constructor
  · unfold ComponentSignalInstance.setNetSignal
    simp
  · intro ns hns
    unfold ComponentSignalInstance.setNetSignal
    rw [if_neg hns, if_pos h]

theorem setNetSignal_unchanged_precedes_addedCheck_witness :
    c10Sig.isAddedToCircuit = false ∧
    (ComponentSignalInstance.setNetSignal c10Ctx [] c10Sig c10Sig.netSignal =
      ⟨none, c10Sig, []⟩) ∧
    (ComponentSignalInstance.setNetSignal c10Ctx [] c10Sig (some 9)).err =
      some (.logicError "") :=
  ⟨rfl,
   (setNetSignal_unchanged_precedes_addedCheck c10Ctx [] c10Sig rfl).1,
   (setNetSignal_unchanged_precedes_addedCheck c10Ctx [] c10Sig rfl).2
     (some 9) (by decide)⟩

/-- C3: for a `ComponentInstance` that is added to the circuit and in use,
`removeFromCircuit` fails with a recoverable user-facing `RuntimeError`
(not a fatal contract violation) and leaves the model completely
unchanged: the component's state (flag, symbol/device registrations,
signals) and the circuit's nets are exactly as before the call. -/
theorem componentInstance_removeFromCircuit_inUse (subst : String → String)
    (nets : List NetSignal) (ci : ComponentInstance)
    (hadd : ci.isAddedToCircuit = true) (huse : ci.isUsed = true) :
    ∃ m, ComponentInstance.removeFromCircuit subst nets ci =
      ⟨some (.runtimeError m), ci, nets⟩ := by
  refine ⟨"The component \"" ++ ci.name ++
    "\" cannot be removed because it is still in use!", ?_⟩
  unfold ComponentInstance.removeFromCircuit
  rw [if_neg (by simp [hadd]), if_pos huse]

theorem componentInstance_removeFromCircuit_inUse_witness :
    c3Ci.isAddedToCircuit = true ∧ c3Ci.isUsed = true ∧
    ∃ m, ComponentInstance.removeFromCircuit idSubst [] c3Ci =
      ⟨some (.runtimeError m), c3Ci, []⟩ :=
  ⟨rfl, by decide,
   componentInstance_removeFromCircuit_inUse idSubst [] c3Ci rfl (by decide)⟩

/-- C4: at a concrete input where the signal instance is added to the
circuit, bound to a net, differs from the requested net, and has an
electrically connected pin, `setNetSignal` raises a `LogicError` (the
fatal contract-violation class) carrying a translated user-facing message,
and leaves the binding and the nets unchanged.  The spec (section 7)
classifies this situation as a recoverable operational failure, as does
the analogous in-use check of `removeFromCircuit`, which raises
`RuntimeError`. -/
theorem setNetSignal_connected_raises_contract_error :
    (ComponentSignalInstance.setNetSignal c4Ctx c4Nets c4Sig none).err =
      some (.logicError ("The net signal of the component signal \"U4:S\"" ++
        " cannot be changed because it is still in use!")) ∧
    (ComponentSignalInstance.setNetSignal c4Ctx c4Nets c4Sig none).sig = c4Sig ∧
    (ComponentSignalInstance.setNetSignal c4Ctx c4Nets c4Sig none).nets = c4Nets := by
  decide

/-- C2 counterexample: a signal instance that is added to the circuit,
whose library signal forces a net name, and that is bound to no net — the
claim says the forced-net-name-conflict message must be visible, but the
code computes `mNetSignal ? (forced != name) : false`, so it is
invisible. -/
theorem forcedNetNameConflict_unbound_invisible :
    c2Sig.isAddedToCircuit = true ∧ c2Sig.isNetSignalNameForced = true ∧
    c2Sig.netSignal = none ∧
    (ComponentSignalInstance.updateErcMessages c2Ctx [] c2Sig).ercMsgForcedNetSignalNameConflict.visible
      = false := by
  decide

/-- C2 amended: after `updateErcMessages` (which every mutation ends
with), the forced-net-name-conflict message is visible iff the signal is
added to the circuit AND its library signal forces a net name AND a net is
bound whose name differs from the forced name after attribute-variable
substitution; a signal with a forced net name and no bound net does NOT
show the conflict message. -/
theorem forcedNetNameConflict_visibility (ctx : Ctx) (nets : List NetSignal)
    (sig : ComponentSignalInstance) :
    ((ComponentSignalInstance.updateErcMessages ctx nets sig).ercMsgForcedNetSignalNameConflict.visible
        = true) ↔
      (sig.isAddedToCircuit = true ∧ sig.isNetSignalNameForced = true ∧
        ∃ u, sig.netSignal = some u ∧
          ComponentSignalInstance.getForcedNetSignalName ctx sig ≠ netNameOf nets u) := by
  unfold ComponentSignalInstance.updateErcMessages
  cases hns : sig.netSignal with
  | none => simp [hns]
  | some u => simp [hns, Bool.and_eq_true, and_assoc]

theorem length_filter_split {α : Type} (l : List α) (p q : α → Bool) :
    (l.filter fun a => p a && !q a).length + (l.filter fun a => p a && q a).length
      = (l.filter p).length := by
  induction l with
  | nil => rfl
  | cons x xs ih =>
    by_cases hp : p x = true <;> by_cases hq : q x = true <;>
      simp [List.filter_cons, hp, hq] <;> omega

/-- C6: `getUnplacedRequiredSymbolsCount` always equals the number of
required symbol-variant items of the chosen variant minus the number of
registered required items, computed on demand by diffing the variant's
item list against the registered-symbol set, and that difference is never
negative. -/
theorem unplacedRequiredSymbolsCount_formula (ci : ComponentInstance) :
    (ci.getUnplacedRequiredSymbolsCount : Int) =
      (requiredItemsCount ci : Int) - (registeredRequiredItemsCount ci : Int) ∧
    registeredRequiredItemsCount ci ≤ requiredItemsCount ci := by
  have h := length_filter_split ci.compSymbVar.symbolItems
    (fun it => it.isRequired)
    (fun it => ci.registeredSymbols.any (fun p => p.1 == it.uuid))
  unfold ComponentInstance.getUnplacedRequiredSymbolsCount requiredItemsCount
    registeredRequiredItemsCount
  constructor
  · omega
  · omega

theorem eraseIdx_append_singleton {α : Type} (l : List α) (e : α) :
    (l ++ [e]).eraseIdx l.length = l := by
  have h := List.eraseIdx_insertIdx l.length l (a := e)
  rwa [List.insertIdx_length_self] at h

/-- C5: for the generic list-insert command, `execute` with index `-1`
(append) resolves the index to the list's length exactly once and inserts
there; for every list state, `execute` followed by `undo` restores the
pre-execute list (keeping the recorded index), and `redo` after `undo`
re-inserts the same element at that recorded index, restoring the
post-execute state. -/
theorem cmdListElementInsert_execute_undo_redo {α : Type} (l : List α)
    (e : α) (idx : Int) :
    (idx = -1 →
      CmdListElementInsert.performExecute e ⟨l, idx⟩ =
        ⟨l ++ [e], (l.length : Int)⟩) ∧
    CmdListElementInsert.performUndo (CmdListElementInsert.performExecute e ⟨l, idx⟩) =
      ⟨l, (CmdListElementInsert.performExecute e ⟨l, idx⟩).index⟩ ∧
    CmdListElementInsert.performRedo e
        (CmdListElementInsert.performUndo (CmdListElementInsert.performExecute e ⟨l, idx⟩)) =
      CmdListElementInsert.performExecute e ⟨l, idx⟩ := by
  by_cases hneg : idx < 0
  · have hex : CmdListElementInsert.performExecute e ⟨l, idx⟩ =
        ⟨l ++ [e], (l.length : Int)⟩ := by
      simp [CmdListElementInsert.performExecute, CmdListElementInsert.performRedo,
        solInsert, hneg, List.insertIdx_length_self]
    refine ⟨fun _ => hex, ?_, ?_⟩
    · rw [hex]
      simp [CmdListElementInsert.performUndo, solRemove, eraseIdx_append_singleton]
    · rw [hex]
      simp [CmdListElementInsert.performUndo, CmdListElementInsert.performRedo,
        solRemove, solInsert, eraseIdx_append_singleton, List.insertIdx_length_self]
  · by_cases hle : idx ≤ (l.length : Int)
    · have hcond : 0 ≤ idx ∧ idx ≤ (l.length : Int) := by omega
      have hex : CmdListElementInsert.performExecute e ⟨l, idx⟩ =
          ⟨l.insertIdx idx.toNat e, idx⟩ := by
        simp [CmdListElementInsert.performExecute, CmdListElementInsert.performRedo,
          solInsert, hneg, hcond.1, hcond.2]
      refine ⟨fun hm => absurd hm (by omega), ?_, ?_⟩
      · rw [hex]
        simp [CmdListElementInsert.performUndo, solRemove, List.eraseIdx_insertIdx]
      · rw [hex]
        simp [CmdListElementInsert.performUndo, CmdListElementInsert.performRedo,
          solRemove, solInsert, List.eraseIdx_insertIdx, hcond.1, hcond.2]
    · have hcond : ¬(0 ≤ idx ∧ idx ≤ (l.length : Int)) := by omega
      have hex : CmdListElementInsert.performExecute e ⟨l, idx⟩ =
          ⟨l ++ [e], (l.length : Int)⟩ := by
        simp [CmdListElementInsert.performExecute, CmdListElementInsert.performRedo,
          solInsert, hneg, hcond]
      refine ⟨fun hm => absurd hm (by omega), ?_, ?_⟩
      · rw [hex]
        simp [CmdListElementInsert.performUndo, solRemove, eraseIdx_append_singleton]
      · rw [hex]
        simp [CmdListElementInsert.performUndo, CmdListElementInsert.performRedo,
          solRemove, solInsert, eraseIdx_append_singleton, List.insertIdx_length_self]

theorem cmdListElementInsert_execute_undo_redo_witness :
    ((-1 : Int) = -1 →
      CmdListElementInsert.performExecute 30 ⟨[10, 20], -1⟩ =
        ⟨[10, 20, 30], (2 : Int)⟩) ∧
    CmdListElementInsert.performUndo
        (CmdListElementInsert.performExecute 30 ⟨[10, 20], (-1 : Int)⟩) =
      ⟨[10, 20], (CmdListElementInsert.performExecute 30 ⟨[10, 20], (-1 : Int)⟩).index⟩ ∧
    CmdListElementInsert.performRedo 30
        (CmdListElementInsert.performUndo
          (CmdListElementInsert.performExecute 30 ⟨[10, 20], (-1 : Int)⟩)) =
      CmdListElementInsert.performExecute 30 ⟨[10, 20], (-1 : Int)⟩ :=
  cmdListElementInsert_execute_undo_redo [10, 20] 30 (-1)

theorem compUpdateErc_isAddedToCircuit (ci : ComponentInstance) :
    (ComponentInstance.updateErcMessages ci).isAddedToCircuit = ci.isAddedToCircuit := rfl

theorem compUpdateErc_signals (ci : ComponentInstance) :
    (ComponentInstance.updateErcMessages ci).signals = ci.signals := rfl

theorem compUpdateErc_registeredSymbols (ci : ComponentInstance) :
    (ComponentInstance.updateErcMessages ci).registeredSymbols = ci.registeredSymbols := rfl

theorem compUpdateErc_registeredDevices (ci : ComponentInstance) :
    (ComponentInstance.updateErcMessages ci).registeredDevices = ci.registeredDevices := rfl

theorem compUpdateErc_requiredCount (ci : ComponentInstance) :
    (ComponentInstance.updateErcMessages ci).getUnplacedRequiredSymbolsCount =
      ci.getUnplacedRequiredSymbolsCount := rfl

theorem compUpdateErc_optionalCount (ci : ComponentInstance) :
    (ComponentInstance.updateErcMessages ci).getUnplacedOptionalSymbolsCount =
      ci.getUnplacedOptionalSymbolsCount := rfl

theorem compUpdateErc_requiredVisible (ci : ComponentInstance) :
    (ComponentInstance.updateErcMessages ci).ercMsgUnplacedRequiredSymbols.visible =
      (ci.isAddedToCircuit && decide (0 < ci.getUnplacedRequiredSymbolsCount)) := rfl

theorem compUpdateErc_optionalVisible (ci : ComponentInstance) :
    (ComponentInstance.updateErcMessages ci).ercMsgUnplacedOptionalSymbols.visible =
      (ci.isAddedToCircuit && decide (0 < ci.getUnplacedOptionalSymbolsCount)) := rfl

/-- C7: with a component instance that is added to the circuit and already
has registered symbols (all on schematic `sch`), registering a further
symbol of the chosen variant into a free slot but on a different schematic
fails with a recoverable user-facing error, and every successful
`registerSymbol` keeps all registered symbols on the same schematic. -/
theorem registerSymbol_sameSchematic (ci : ComponentInstance)
    (symbol : SI_Symbol) (sch : Nat)
    (hadd : ci.isAddedToCircuit = true)
    (hcirc : symbol.circuit = ci.circuit)
    (hitem : (ci.compSymbVar.symbolItems.find?
      (fun it => it.uuid == symbol.compSymbVarItemUuid)).isSome = true)
    (hfree : ci.registeredSymbols.any
      (fun p => p.1 == symbol.compSymbVarItemUuid) = false)
    (hne : ci.registeredSymbols ≠ [])
    (hall : ∀ p ∈ ci.registeredSymbols, p.2.schematic = sch)
    (hdiff : symbol.schematic ≠ sch) :
    ci.registerSymbol symbol = .error (.runtimeError
      "All symbols of a component must be placed in the same schematic.") ∧
    ∀ sym2 ci2, ci.registerSymbol sym2 = .ok ci2 →
      ∀ p ∈ ci2.registeredSymbols, p.2.schematic = sch := by
  obtain ⟨p0, rest, hps⟩ := List.exists_cons_of_ne_nil hne
  have hp0 : p0.2.schematic = sch := hall p0 (by rw [hps]; exact List.mem_cons_self p0 rest)
  constructor
  · unfold ComponentInstance.registerSymbol
    rw [if_neg (by simp [hadd, hcirc]), if_neg (by simp_all), if_neg (by simp [hfree])]
    rw [hps]
    dsimp only
    rw [if_pos (by rw [hp0]; exact hdiff)]
  · intro sym2 ci2 hok
    unfold ComponentInstance.registerSymbol at hok
    rw [hps] at hok
    by_cases h1 : ci.isAddedToCircuit = false ∨ sym2.circuit ≠ ci.circuit
    · rw [if_pos h1] at hok
      exact absurd hok (by simp)
    · rw [if_neg h1] at hok
      by_cases h2 : (ci.compSymbVar.symbolItems.find?
          (fun it => it.uuid == sym2.compSymbVarItemUuid)).isNone = true
      · rw [if_pos h2] at hok
        exact absurd hok (by simp)
      · rw [if_neg h2] at hok
        by_cases h3 : ((p0 :: rest).any
            (fun p => p.1 == sym2.compSymbVarItemUuid)) = true
        · rw [if_pos h3] at hok
          exact absurd hok (by simp)
        · rw [if_neg h3] at hok
          dsimp only at hok
          by_cases h4 : sym2.schematic ≠ p0.2.schematic
          · rw [if_pos h4] at hok
            exact absurd hok (by simp)
          · rw [if_neg h4] at hok
            push_neg at h4
            injection hok with hok2
            subst hok2
            intro p hp
            rw [compUpdateErc_registeredSymbols] at hp
            dsimp only at hp
            rcases List.mem_cons.mp hp with rfl | hmem
            · exact hp0
            · rcases List.mem_append.mp hmem with hmem2 | hmem2
              · exact hall p (by rw [hps]; exact List.mem_cons_of_mem p0 hmem2)
              · simp only [List.mem_singleton] at hmem2
                subst hmem2
                rw [h4, hp0]

theorem findNet_cons (n : NetSignal) (rest : List NetSignal) (u : Uuid) :
    findNet (n :: rest) u = if n.uuid = u then some n else findNet rest u := by
  by_cases h : n.uuid = u
  · simp only [findNet, if_pos h]
    rw [List.find?_cons_of_pos _ (by simp [h])]
  · simp only [findNet, if_neg h]
    rw [List.find?_cons_of_neg _ (by simp [h])]

theorem registerInNets_mono (nets nets' : List NetSignal) (nu sid' : Uuid)
    (h : registerInNets nets nu sid' = .ok nets') (u sid : Uuid)
    (hreg : sigRegisteredIn nets u sid) : sigRegisteredIn nets' u sid := by
  induction nets generalizing nets' with
  | nil => simp [registerInNets] at h
  | cons n rest ih =>
    by_cases hu : n.uuid = nu
    · simp only [registerInNets, if_pos hu] at h
      unfold NetSignal.registerComponentSignal at h
      by_cases hg : n.isAddedToCircuit = false ∨ sid' ∈ n.registeredComponentSignals
      · simp [hg] at h
      · simp only [if_neg hg] at h
        cases h
        obtain ⟨n0, hn0, hmem⟩ := hreg
        rw [findNet_cons] at hn0
        by_cases hnu2 : n.uuid = u
        · rw [if_pos hnu2] at hn0
          cases hn0
          exact ⟨_, by rw [findNet_cons, if_pos hnu2],
            Finset.mem_insert_of_mem hmem⟩
        · rw [if_neg hnu2] at hn0
          exact ⟨n0, by rw [findNet_cons, if_neg hnu2]; exact hn0, hmem⟩
    · simp only [registerInNets, if_neg hu] at h
      cases hrest : registerInNets rest nu sid' with
      | error e => simp [hrest] at h
      | ok rest2 =>
        simp only [hrest] at h
        cases h
        obtain ⟨n0, hn0, hmem⟩ := hreg
        rw [findNet_cons] at hn0
        by_cases hnu2 : n.uuid = u
        · rw [if_pos hnu2] at hn0
          cases hn0
          exact ⟨n, by rw [findNet_cons, if_pos hnu2], hmem⟩
        · rw [if_neg hnu2] at hn0
          obtain ⟨n1, hn1, hmem1⟩ := ih rest2 hrest ⟨n0, hn0, hmem⟩
          exact ⟨n1, by rw [findNet_cons, if_neg hnu2]; exact hn1, hmem1⟩

theorem registerInNets_self (nets nets' : List NetSignal) (nu sid : Uuid)
    (h : registerInNets nets nu sid = .ok nets') : sigRegisteredIn nets' nu sid := by
  induction nets generalizing nets' with
  | nil => simp [registerInNets] at h
  | cons n rest ih =>
    by_cases hu : n.uuid = nu
    · simp only [registerInNets, if_pos hu] at h
      unfold NetSignal.registerComponentSignal at h
      by_cases hg : n.isAddedToCircuit = false ∨ sid ∈ n.registeredComponentSignals
      · simp [hg] at h
      · simp only [if_neg hg] at h
        cases h
        exact ⟨_, by rw [findNet_cons, if_pos hu], Finset.mem_insert_self sid _⟩
    · simp only [registerInNets, if_neg hu] at h
      cases hrest : registerInNets rest nu sid with
      | error e => simp [hrest] at h
      | ok rest2 =>
        simp only [hrest] at h
        cases h
        obtain ⟨n1, hn1, hmem1⟩ := ih rest2 hrest
        exact ⟨n1, by rw [findNet_cons, if_neg hu]; exact hn1, hmem1⟩

theorem sigAddToCircuit_error_unchanged (ctx : Ctx) (nets : List NetSignal)
    (s : ComponentSignalInstance) (e : Err)
    (h : (ComponentSignalInstance.addToCircuit ctx nets s).err = some e) :
    ComponentSignalInstance.addToCircuit ctx nets s = ⟨some e, s, nets⟩ := by
  unfold ComponentSignalInstance.addToCircuit at h ⊢
  by_cases hg : (s.isAddedToCircuit || s.isUsed) = true
  · rw [if_pos hg] at h ⊢
    obtain rfl : Err.logicError "" = e := by simpa using h
    rfl
  · rw [if_neg hg] at h ⊢
    cases hns : s.netSignal with
    | none =>
      rw [hns] at h
      simp at h
    | some u =>
      rw [hns] at h
      cases hreg : registerInNets nets u s.compSignal.uuid with
      | error e2 =>
        dsimp only at h ⊢
        rw [hreg] at h ⊢
        obtain rfl : e2 = e := by simpa using h
        rfl
      | ok nets2 =>
        dsimp only at h
        rw [hreg] at h
        simp at h

theorem sigAddToCircuit_ok (ctx : Ctx) (nets : List NetSignal)
    (s : ComponentSignalInstance)
    (h : (ComponentSignalInstance.addToCircuit ctx nets s).err = none) :
    (s.isAddedToCircuit || s.isUsed) = false ∧
    ∃ nets2, ComponentSignalInstance.addToCircuit ctx nets s =
        ⟨none, ComponentSignalInstance.updateErcMessages ctx nets2
          { s with isAddedToCircuit := true }, nets2⟩ ∧
      (match s.netSignal with
       | none => nets2 = nets
       | some u => registerInNets nets u s.compSignal.uuid = .ok nets2) := by
  unfold ComponentSignalInstance.addToCircuit at h ⊢
  by_cases hg : (s.isAddedToCircuit || s.isUsed) = true
  · rw [if_pos hg] at h
    simp at h
  · rw [if_neg hg] at h ⊢
    refine ⟨by simpa using hg, ?_⟩
    cases hns : s.netSignal with
    | none => exact ⟨nets, rfl, rfl⟩
    | some u =>
      rw [hns] at h
      cases hreg : registerInNets nets u s.compSignal.uuid with
      | error e2 =>
        dsimp only at h
        rw [hreg] at h
        simp at h
      | ok nets2 =>
        dsimp only
        rw [hreg]
        exact ⟨nets2, rfl, rfl⟩

theorem sigAddToCircuit_ok_names (ctx : Ctx) (nets : List NetSignal)
    (s : ComponentSignalInstance)
    (h : (ComponentSignalInstance.addToCircuit ctx nets s).err = none) :
    ∀ u, netNameOf (ComponentSignalInstance.addToCircuit ctx nets s).nets u =
      netNameOf nets u := by
  obtain ⟨-, nets2, heq, hcase⟩ := sigAddToCircuit_ok ctx nets s h
  rw [heq]
  cases hns : s.netSignal with
  | none =>
    rw [hns] at hcase
    have hnn : nets2 = nets := hcase
    subst hnn
    intro u
    rfl
  | some u0 =>
    rw [hns] at hcase
    exact registerInNets_netNameOf nets nets2 u0 s.compSignal.uuid hcase

theorem sigRemoveFromCircuit_of (ctx : Ctx) (nets' : List NetSignal)
    (sig' : ComponentSignalInstance) (h1 : sig'.isAddedToCircuit = true)
    (h2 : sig'.isUsed = false) :
    ComponentSignalInstance.removeFromCircuit ctx nets' sig' =
      match sig'.netSignal with
      | none => ⟨none, ComponentSignalInstance.updateErcMessages ctx nets'
          { sig' with isAddedToCircuit := false }, nets'⟩
      | some u =>
        match unregisterInNets nets' u sig'.compSignal.uuid with
        | .error e => ⟨some e, sig', nets'⟩
        | .ok nets3 => ⟨none, ComponentSignalInstance.updateErcMessages ctx nets3
            { sig' with isAddedToCircuit := false }, nets3⟩ := by
  unfold ComponentSignalInstance.removeFromCircuit
  rw [h1, h2]
  rw [if_neg (by simp), if_neg (by simp)]
  cases sig'.netSignal <;> rfl

theorem sigAddToCircuit_rollback (ctx : Ctx) (nets : List NetSignal)
    (s : ComponentSignalInstance) (hused : s.isUsed = false)
    (hfresh : ercFresh ctx nets s)
    (h : (ComponentSignalInstance.addToCircuit ctx nets s).err = none) :
    ComponentSignalInstance.removeFromCircuit ctx
        (ComponentSignalInstance.addToCircuit ctx nets s).nets
        (ComponentSignalInstance.addToCircuit ctx nets s).sig = ⟨none, s, nets⟩ := by
  obtain ⟨hg, nets2, heq, hcase⟩ := sigAddToCircuit_ok ctx nets s h
  have hadd : s.isAddedToCircuit = false := by
    cases hA : s.isAddedToCircuit
    · rfl
    · rw [hA] at hg; simp at hg
  rw [heq]
  dsimp only
  rw [sigRemoveFromCircuit_of ctx nets2
    (ComponentSignalInstance.updateErcMessages ctx nets2 { s with isAddedToCircuit := true })
    rfl hused]
  have hXnet : (ComponentSignalInstance.updateErcMessages ctx nets2
      { s with isAddedToCircuit := true }).netSignal = s.netSignal := rfl
  rw [hXnet]
  have hXcs : (ComponentSignalInstance.updateErcMessages ctx nets2
      { s with isAddedToCircuit := true }).compSignal = s.compSignal := rfl
  have hcg : ∀ nets3 : List NetSignal,
      ComponentSignalInstance.updateErcMessages ctx nets3
        { ComponentSignalInstance.updateErcMessages ctx nets2
            { s with isAddedToCircuit := true } with isAddedToCircuit := false } =
      ComponentSignalInstance.updateErcMessages ctx nets3 s := fun nets3 =>
    sigUpdateErc_congr ctx nets3
      { ComponentSignalInstance.updateErcMessages ctx nets2
          { s with isAddedToCircuit := true } with isAddedToCircuit := false }
      s rfl hadd.symm rfl rfl rfl
  unfold ercFresh at hfresh
  generalize hX : ComponentSignalInstance.updateErcMessages ctx nets2
    { s with isAddedToCircuit := true } = X at hXcs hXnet hcg ⊢
  cases hns : s.netSignal with
  | none =>
    rw [hns] at hcase hXnet
    have hnn : nets2 = nets := hcase
    dsimp only at hcg ⊢
    rw [hXnet] at hcg
    rw [hcg nets2, hnn, hfresh]
  | some u =>
    rw [hns] at hcase hXnet
    have hun : unregisterInNets nets2 u s.compSignal.uuid = .ok nets :=
      registerInNets_unregisterInNets nets nets2 u s.compSignal.uuid hcase
    dsimp only at hcg ⊢
    rw [hXnet] at hcg
    rw [hXcs] at hcg ⊢
    rw [hun]
    dsimp only
    rw [hcg nets, hfresh]

theorem addSignalsLoop_error_restores (ctx : Ctx) (todo : List ComponentSignalInstance) :
    ∀ nets, (∀ s ∈ todo, s.isUsed = false ∧ ercFresh ctx nets s) →
    ∀ e, (addSignalsLoop ctx nets todo).err = some e →
    addSignalsLoop ctx nets todo = ⟨some e, todo, nets⟩ := by
  induction todo with
  | nil =>
    intro nets _ e h
    simp [addSignalsLoop] at h
  | cons s rest ih =>
    intro nets hinv e h
    have hs := hinv s (List.mem_cons_self s rest)
    rcases haddr : ComponentSignalInstance.addToCircuit ctx nets s with ⟨err1, s1, nets1⟩
    cases err1 with
    | some e1 =>
      have hrest : ComponentSignalInstance.addToCircuit ctx nets s = ⟨some e1, s, nets⟩ :=
        sigAddToCircuit_error_unchanged ctx nets s e1 (by rw [haddr])
      rw [haddr] at hrest
      injection hrest with hh1 hh2 hh3
      subst hh2
      subst hh3
      simp only [addSignalsLoop, haddr] at h ⊢
      obtain rfl : e1 = e := by simpa using h
      rfl
    | none =>
      have hnames := sigAddToCircuit_ok_names ctx nets s (by rw [haddr])
      rw [haddr] at hnames
      dsimp only at hnames
      have hinv1 : ∀ t ∈ rest, t.isUsed = false ∧ ercFresh ctx nets1 t := by
        intro t ht
        exact ⟨(hinv t (List.mem_cons_of_mem s ht)).1,
          ercFresh_transport ctx nets nets1 t (hinv t (List.mem_cons_of_mem s ht)).2 hnames⟩
      rcases hloop : addSignalsLoop ctx nets1 rest with ⟨err2, sigs2, nets2⟩
      cases err2 with
      | none =>
        simp only [addSignalsLoop, haddr, hloop] at h
        simp at h
      | some e2 =>
        have hre := ih nets1 hinv1 e2 (by rw [hloop])
        rw [hloop] at hre
        injection hre with hh1 hh2 hh3
        subst hh2
        subst hh3
        have hrb := sigAddToCircuit_rollback ctx nets s hs.1 hs.2 (by rw [haddr])
        rw [haddr] at hrb
        dsimp only at hrb
        simp only [addSignalsLoop, haddr, hloop, hrb] at h ⊢
        obtain rfl : e2 = e := by simpa using h
        rfl

theorem sigAddToCircuit_ok_mono (ctx : Ctx) (nets : List NetSignal)
    (s : ComponentSignalInstance)
    (h : (ComponentSignalInstance.addToCircuit ctx nets s).err = none)
    (u sid : Uuid) (hreg : sigRegisteredIn nets u sid) :
    sigRegisteredIn (ComponentSignalInstance.addToCircuit ctx nets s).nets u sid := by
  obtain ⟨-, nets2, heq, hcase⟩ := sigAddToCircuit_ok ctx nets s h
  rw [heq]
  cases hns : s.netSignal with
  | none =>
    rw [hns] at hcase
    have hnn : nets2 = nets := hcase
    subst hnn
    exact hreg
  | some u0 =>
    rw [hns] at hcase
    exact registerInNets_mono nets nets2 u0 s.compSignal.uuid hcase u sid hreg

theorem addSignalsLoop_ok_mono (ctx : Ctx) (todo : List ComponentSignalInstance) :
    ∀ nets sigs nets', addSignalsLoop ctx nets todo = ⟨none, sigs, nets'⟩ →
    ∀ u sid, sigRegisteredIn nets u sid → sigRegisteredIn nets' u sid := by
  induction todo with
  | nil =>
    intro nets sigs nets' h u sid hreg
    simp only [addSignalsLoop] at h
    injection h with hh1 hh2 hh3
    subst hh3
    exact hreg
  | cons s rest ih =>
    intro nets sigs nets' h u sid hreg
    rcases haddr : ComponentSignalInstance.addToCircuit ctx nets s with ⟨err1, s1, nets1⟩
    cases err1 with
    | some e1 =>
      simp only [addSignalsLoop, haddr] at h
      simp at h
    | none =>
      rcases hloop : addSignalsLoop ctx nets1 rest with ⟨err2, sigs2, nets2⟩
      cases err2 with
      | some e2 =>
        rcases hrb : ComponentSignalInstance.removeFromCircuit ctx nets2 s1 with ⟨err3, s3, nets3⟩
        simp only [addSignalsLoop, haddr, hloop, hrb] at h
        simp at h
      | none =>
        simp only [addSignalsLoop, haddr, hloop] at h
        injection h with hh1 hh2 hh3
        subst hh3
        have h1 : sigRegisteredIn nets1 u sid := by
          have := sigAddToCircuit_ok_mono ctx nets s (by rw [haddr]) u sid hreg
          rw [haddr] at this
          exact this
        exact ih nets1 sigs2 nets2 hloop u sid h1

theorem addSignalsLoop_ok_props (ctx : Ctx) (todo : List ComponentSignalInstance) :
    ∀ nets sigs nets', addSignalsLoop ctx nets todo = ⟨none, sigs, nets'⟩ →
    sigs.length = todo.length ∧
    ∀ s' ∈ sigs, s'.isAddedToCircuit = true ∧
      ∀ u, s'.netSignal = some u → sigRegisteredIn nets' u s'.compSignal.uuid := by
  induction todo with
  | nil =>
    intro nets sigs nets' h
    simp only [addSignalsLoop] at h
    injection h with hh1 hh2 hh3
    subst hh2
    simp
  | cons s rest ih =>
    intro nets sigs nets' h
    rcases haddr : ComponentSignalInstance.addToCircuit ctx nets s with ⟨err1, s1, nets1⟩
    cases err1 with
    | some e1 =>
      simp only [addSignalsLoop, haddr] at h
      simp at h
    | none =>
      rcases hloop : addSignalsLoop ctx nets1 rest with ⟨err2, sigs2, nets2⟩
      cases err2 with
      | some e2 =>
        rcases hrb : ComponentSignalInstance.removeFromCircuit ctx nets2 s1 with ⟨err3, s3, nets3⟩
        simp only [addSignalsLoop, haddr, hloop, hrb] at h
        simp at h
      | none =>
        simp only [addSignalsLoop, haddr, hloop] at h
        injection h with hh1 hh2 hh3
        subst hh2
        subst hh3
        obtain ⟨hlen, hprops⟩ := ih nets1 sigs2 nets2 hloop
        obtain ⟨-, nets2', heq, hcase⟩ :=
          sigAddToCircuit_ok ctx nets s (by rw [haddr])
        rw [haddr] at heq
        injection heq with gg1 gg2 gg3
        subst gg3
        constructor
        · simp [hlen]
        · intro s' hs'
          rcases List.mem_cons.mp hs' with rfl | hmem
          · subst gg2
            refine ⟨rfl, ?_⟩
            intro u hu
            have hnsu : s.netSignal = some u := hu
            rw [hnsu] at hcase
            have hr1 : sigRegisteredIn nets1 u s.compSignal.uuid :=
              registerInNets_self nets nets1 u s.compSignal.uuid hcase
            exact addSignalsLoop_ok_mono ctx rest nets1 sigs2 nets2 hloop
              u s.compSignal.uuid hr1
          · exact hprops s' hmem

/-- C1: `ComponentInstance::addToCircuit` is atomic.  Under the spec's
invariant that the owned signals' ERC messages are fresh (section 4.4), a
failing call — whether from the precondition or because registering the
k-th signal instance with its bound net throws — unregisters every
previously registered signal via the scope-guard list and returns with the
component (its `addedToCircuit` flag still false, all signal states) and
the circuit's nets exactly as before the call; on success every owned
signal is added, each signal's bound net has it registered, the flag flips
to true and the unplaced-symbols ERC visibility is recomputed. -/
theorem componentInstance_addToCircuit_atomic (subst : String → String)
    (nets : List NetSignal) (ci : ComponentInstance)
    (hfresh : ∀ s ∈ ci.signals, ercFresh ⟨ci.name, subst⟩ nets s) :
    (∀ e, (ComponentInstance.addToCircuit subst nets ci).err = some e →
      ComponentInstance.addToCircuit subst nets ci = ⟨some e, ci, nets⟩) ∧
    ((ComponentInstance.addToCircuit subst nets ci).err = none →
      (ComponentInstance.addToCircuit subst nets ci).comp.isAddedToCircuit = true ∧
      (ComponentInstance.addToCircuit subst nets ci).comp.signals.length =
        ci.signals.length ∧
      (∀ s' ∈ (ComponentInstance.addToCircuit subst nets ci).comp.signals,
        s'.isAddedToCircuit = true ∧
        ∀ u, s'.netSignal = some u →
          sigRegisteredIn (ComponentInstance.addToCircuit subst nets ci).nets
            u s'.compSignal.uuid) ∧
      (ComponentInstance.addToCircuit subst nets ci).comp.ercMsgUnplacedRequiredSymbols.visible =
        ((ComponentInstance.addToCircuit subst nets ci).comp.isAddedToCircuit &&
          decide (0 < (ComponentInstance.addToCircuit subst nets ci).comp.getUnplacedRequiredSymbolsCount)) ∧
      (ComponentInstance.addToCircuit subst nets ci).comp.ercMsgUnplacedOptionalSymbols.visible =
        ((ComponentInstance.addToCircuit subst nets ci).comp.isAddedToCircuit &&
          decide (0 < (ComponentInstance.addToCircuit subst nets ci).comp.getUnplacedOptionalSymbolsCount))) := by
  by_cases hg : (ci.isAddedToCircuit || ci.isUsed) = true
  · constructor
    · intro e he
      simp only [ComponentInstance.addToCircuit, if_pos hg] at he ⊢
      obtain rfl : Err.logicError "" = e := by simpa using he
      rfl
    · intro he
      simp only [ComponentInstance.addToCircuit, if_pos hg] at he
      simp at he
  · have hciused : ci.isUsed = false := by
      cases hA : ci.isUsed
      · rfl
      · rw [hA] at hg; simp at hg
    have hsigs : ∀ s ∈ ci.signals, s.isUsed = false := by
      have h2 := hciused
      unfold ComponentInstance.isUsed at h2
      rw [Bool.or_eq_false_iff] at h2
      have h3 := h2.2
      rw [List.any_eq_false] at h3
      intro s hs
      cases hS : s.isUsed
      · rfl
      · exact absurd hS (h3 s hs)
    have hinv : ∀ s ∈ ci.signals, s.isUsed = false ∧
        ercFresh ⟨ci.name, subst⟩ nets s :=
      fun s hs => ⟨hsigs s hs, hfresh s hs⟩
    rcases hloop : addSignalsLoop ⟨ci.name, subst⟩ nets ci.signals with ⟨err0, sigs0, nets0⟩
    cases err0 with
    | some e0 =>
      have hres := addSignalsLoop_error_restores ⟨ci.name, subst⟩ ci.signals
        nets hinv e0 (by rw [hloop])
      rw [hloop] at hres
      injection hres with gg1 gg2 gg3
      subst gg2
      subst gg3
      constructor
      · intro e he
        simp only [ComponentInstance.addToCircuit, if_neg hg, hloop] at he ⊢
        obtain rfl : e0 = e := by simpa using he
        rfl
      · intro he
        simp only [ComponentInstance.addToCircuit, if_neg hg, hloop] at he
        simp at he
    | none =>
      obtain ⟨hlen, hprops⟩ := addSignalsLoop_ok_props ⟨ci.name, subst⟩
        ci.signals nets sigs0 nets0 hloop
      constructor
      · intro e he
        simp only [ComponentInstance.addToCircuit, if_neg hg, hloop] at he
        simp at he
      · intro he
        simp only [ComponentInstance.addToCircuit, if_neg hg, hloop]
        exact ⟨rfl, hlen, fun s' hs' => hprops s' hs', rfl, rfl⟩

theorem componentInstance_addToCircuit_atomic_witness :
    (∀ s ∈ c1Ci.signals, ercFresh ⟨c1Ci.name, idSubst⟩ c1Nets s) ∧
    ((∀ e, (ComponentInstance.addToCircuit idSubst c1Nets c1Ci).err = some e →
      ComponentInstance.addToCircuit idSubst c1Nets c1Ci = ⟨some e, c1Ci, c1Nets⟩) ∧
    ((ComponentInstance.addToCircuit idSubst c1Nets c1Ci).err = none →
      (ComponentInstance.addToCircuit idSubst c1Nets c1Ci).comp.isAddedToCircuit = true ∧
      (ComponentInstance.addToCircuit idSubst c1Nets c1Ci).comp.signals.length =
        c1Ci.signals.length ∧
      (∀ s' ∈ (ComponentInstance.addToCircuit idSubst c1Nets c1Ci).comp.signals,
        s'.isAddedToCircuit = true ∧
        ∀ u, s'.netSignal = some u →
          sigRegisteredIn (ComponentInstance.addToCircuit idSubst c1Nets c1Ci).nets
            u s'.compSignal.uuid) ∧
      (ComponentInstance.addToCircuit idSubst c1Nets c1Ci).comp.ercMsgUnplacedRequiredSymbols.visible =
        ((ComponentInstance.addToCircuit idSubst c1Nets c1Ci).comp.isAddedToCircuit &&
          decide (0 < (ComponentInstance.addToCircuit idSubst c1Nets c1Ci).comp.getUnplacedRequiredSymbolsCount)) ∧
      (ComponentInstance.addToCircuit idSubst c1Nets c1Ci).comp.ercMsgUnplacedOptionalSymbols.visible =
        ((ComponentInstance.addToCircuit idSubst c1Nets c1Ci).comp.isAddedToCircuit &&
          decide (0 < (ComponentInstance.addToCircuit idSubst c1Nets c1Ci).comp.getUnplacedOptionalSymbolsCount)))) :=
  ⟨by simp only [ercFresh]; decide,
   componentInstance_addToCircuit_atomic idSubst c1Nets c1Ci
     (by simp only [ercFresh]; decide)⟩

theorem registerSymbol_sameSchematic_witness :
    c7Ci.isAddedToCircuit = true ∧ c7Sym2.circuit = c7Ci.circuit ∧
    (c7Ci.compSymbVar.symbolItems.find?
      (fun it => it.uuid == c7Sym2.compSymbVarItemUuid)).isSome = true ∧
    c7Ci.registeredSymbols.any
      (fun p => p.1 == c7Sym2.compSymbVarItemUuid) = false ∧
    c7Ci.registeredSymbols ≠ [] ∧
    (∀ p ∈ c7Ci.registeredSymbols, p.2.schematic = 1) ∧
    c7Sym2.schematic ≠ 1 ∧
    (c7Ci.registerSymbol c7Sym2 = .error (.runtimeError
      "All symbols of a component must be placed in the same schematic.") ∧
    ∀ sym2 ci2, c7Ci.registerSymbol sym2 = .ok ci2 →
      ∀ p ∈ ci2.registeredSymbols, p.2.schematic = 1) :=
  ⟨rfl, rfl, by decide, by decide, by decide, by decide, by decide,
   registerSymbol_sameSchematic c7Ci c7Sym2 1 rfl rfl (by decide) (by decide)
     (by decide) (by decide) (by decide)⟩

theorem sigFromDom_error_runtime (ctx : Ctx) (nets : List NetSignal)
    (libCmp : library.Component) (entry : SignalMapEntry) (e : Err)
    (h : ComponentSignalInstance.fromDom ctx nets libCmp entry = .error e) :
    ∃ m, e = .runtimeError m := by
  unfold ComponentSignalInstance.fromDom at h
  cases hfind : libCmp.signals.find? (fun s => s.uuid == entry.compSignal) with
  | none =>
    rw [hfind] at h
    exact ⟨_, by simpa using h.symm⟩
  | some cs =>
    rw [hfind] at h
    cases hns : entry.netsignal with
    | none => rw [hns] at h; simp at h
    | some nu =>
      rw [hns] at h
      dsimp only at h
      by_cases hfn : (findNet nets nu).isNone = true
      · rw [if_pos hfn] at h
        exact ⟨_, by simpa using h.symm⟩
      · rw [if_neg hfn] at h
        simp at h

theorem sigFromDom_ok (ctx : Ctx) (nets : List NetSignal)
    (libCmp : library.Component) (entry : SignalMapEntry)
    (s : ComponentSignalInstance)
    (h : ComponentSignalInstance.fromDom ctx nets libCmp entry = .ok s) :
    s.compSignal ∈ libCmp.signals ∧ s.compSignal.uuid = entry.compSignal ∧
    s.isAddedToCircuit = false := by
  unfold ComponentSignalInstance.fromDom at h
  cases hfind : libCmp.signals.find? (fun s => s.uuid == entry.compSignal) with
  | none => rw [hfind] at h; simp at h
  | some cs =>
    rw [hfind] at h
    have hmem : cs ∈ libCmp.signals := List.mem_of_find?_eq_some hfind
    have hkey : cs.uuid = entry.compSignal := by
      have := List.find?_some hfind
      simpa using this
    cases hns : entry.netsignal with
    | none =>
      rw [hns] at h
      injection h with hh
      subst hh
      exact ⟨hmem, hkey, rfl⟩
    | some nu =>
      rw [hns] at h
      dsimp only at h
      by_cases hfn : (findNet nets nu).isNone = true
      · rw [if_pos hfn] at h
        simp at h
      · rw [if_neg hfn] at h
        injection h with hh
        subst hh
        exact ⟨hmem, hkey, rfl⟩

theorem loadSignalMap_error_runtime (ctx : Ctx) (nets : List NetSignal)
    (libCmp : library.Component) :
    ∀ (entries : List SignalMapEntry) (acc : List ComponentSignalInstance) (e : Err),
    loadSignalMap ctx nets libCmp entries acc = .error e → ∃ m, e = .runtimeError m := by
  intro entries
  induction entries with
  | nil => intro acc e h; simp [loadSignalMap] at h
  | cons entry rest ih =>
    intro acc e h
    unfold loadSignalMap at h
    cases hfd : ComponentSignalInstance.fromDom ctx nets libCmp entry with
    | error e1 =>
      rw [hfd] at h
      obtain rfl : e1 = e := by simpa using h
      exact sigFromDom_error_runtime ctx nets libCmp entry _ hfd
    | ok s =>
      rw [hfd] at h
      dsimp only at h
      by_cases hdup : (acc.any fun t => t.compSignal.uuid == s.compSignal.uuid) = true
      · rw [if_pos hdup] at h
        exact ⟨_, by simpa using h.symm⟩
      · rw [if_neg hdup] at h
        exact ih (acc ++ [s]) e h

theorem loadSignalMap_ok_props (ctx : Ctx) (nets : List NetSignal)
    (libCmp : library.Component) :
    ∀ (entries : List SignalMapEntry) (acc sigs : List ComponentSignalInstance),
    loadSignalMap ctx nets libCmp entries acc = .ok sigs →
    sigs.map (fun t => t.compSignal.uuid) =
      acc.map (fun t => t.compSignal.uuid) ++ entries.map (fun en => en.compSignal) ∧
    ((acc.map (fun t => t.compSignal.uuid)).Nodup →
      (sigs.map (fun t => t.compSignal.uuid)).Nodup) ∧
    (∀ t ∈ sigs, t ∈ acc ∨ (t.compSignal ∈ libCmp.signals ∧ t.isAddedToCircuit = false)) := by
  intro entries
  induction entries with
  | nil =>
    intro acc sigs h
    simp only [loadSignalMap] at h
    injection h with hh
    subst hh
    exact ⟨by simp, fun hn => hn, fun t ht => Or.inl ht⟩
  | cons entry rest ih =>
    intro acc sigs h
    unfold loadSignalMap at h
    cases hfd : ComponentSignalInstance.fromDom ctx nets libCmp entry with
    | error e1 => rw [hfd] at h; simp at h
    | ok s =>
      rw [hfd] at h
      dsimp only at h
      by_cases hdup : (acc.any fun t => t.compSignal.uuid == s.compSignal.uuid) = true
      · rw [if_pos hdup] at h
        simp at h
      · rw [if_neg hdup] at h
        obtain ⟨hsmem, hskey, hsadd⟩ := sigFromDom_ok ctx nets libCmp entry s hfd
        obtain ⟨hmap, hnd, hmem⟩ := ih (acc ++ [s]) sigs h
        have hnotin : s.compSignal.uuid ∉ acc.map (fun t => t.compSignal.uuid) := by
          intro hin
          obtain ⟨t, ht, hte⟩ := List.mem_map.mp hin
          exact hdup (List.any_eq_true.mpr ⟨t, ht, by simp [hte]⟩)
        refine ⟨?_, ?_, ?_⟩
        · rw [hmap]
          simp [hskey]
        · intro hna
          apply hnd
          simp only [List.map_append, List.map_cons, List.map_nil]
          rw [List.nodup_append]
          exact ⟨hna, List.nodup_singleton _, by simpa using hnotin⟩
        · intro t ht
          rcases hmem t ht with hacc | hlib
          · rcases List.mem_append.mp hacc with h1 | h1
            · exact Or.inl h1
            · simp only [List.mem_singleton] at h1
              subst h1
              exact Or.inr ⟨hsmem, hsadd⟩
          · exact Or.inr hlib

/-- C9: the deserializing `ComponentInstance` constructor fails with a
recoverable error when the signal map contains two entries for the same
component-signal UUID or when the entry count differs from the library
component's signal count; on success the instance owns exactly one signal
instance per library-defined signal (the keys are a permutation of the
component's signal UUIDs). -/
theorem componentInstance_fromDom_signalMap (subst : String → String)
    (circuitId : Nat) (lib : List library.Component) (nets : List NetSignal)
    (dom : ComponentInstanceDom) (cmp : library.Component)
    (hcmp : lib.find? (fun c => c.uuid == dom.component) = some cmp) :
    (¬(dom.signalMap.map (fun en => en.compSignal)).Nodup →
      ∃ m, ComponentInstance.fromDom subst circuitId lib nets dom =
        .error (.runtimeError m)) ∧
    (dom.signalMap.length ≠ cmp.signals.length →
      ∃ m, ComponentInstance.fromDom subst circuitId lib nets dom =
        .error (.runtimeError m)) ∧
    (∀ ci, ComponentInstance.fromDom subst circuitId lib nets dom = .ok ci →
      ci.libComponent = cmp ∧
      (∀ t ∈ ci.signals, t.compSignal ∈ cmp.signals) ∧
      (ci.signals.map (fun t => t.compSignal.uuid)).Nodup ∧
      List.Perm (ci.signals.map (fun t => t.compSignal.uuid))
        (cmp.signals.map (fun cs => cs.uuid))) := by
  unfold ComponentInstance.fromDom
  rw [hcmp]
  dsimp only
  cases hvar : cmp.symbolVariants.find? (fun v => v.uuid == dom.symbolVariant) with
  | none =>
    dsimp only
    refine ⟨fun _ => ⟨_, rfl⟩, fun _ => ⟨_, rfl⟩, fun ci hok => by simp at hok⟩
  | some symbVar =>
    dsimp only
    cases hload : loadSignalMap ⟨dom.name, subst⟩ nets cmp dom.signalMap [] with
    | error e =>
      obtain ⟨m, hm⟩ := loadSignalMap_error_runtime ⟨dom.name, subst⟩ nets cmp
        dom.signalMap [] e hload
      subst hm
      dsimp only
      refine ⟨fun _ => ⟨m, rfl⟩, fun _ => ⟨m, rfl⟩, fun ci hok => by simp at hok⟩
    | ok sigs =>
      obtain ⟨hmap, hnd, hmem⟩ := loadSignalMap_ok_props ⟨dom.name, subst⟩ nets cmp
        dom.signalMap [] sigs hload
      simp only [List.map_nil, List.nil_append] at hmap
      have hsnd : (sigs.map (fun t => t.compSignal.uuid)).Nodup :=
        hnd (by simp)
      have hslen : sigs.length = dom.signalMap.length := by
        have := congrArg List.length hmap
        simpa using this
      constructor
      · intro hdup
        exact absurd (hmap ▸ hsnd) hdup
      · dsimp only
        by_cases hcnt : sigs.length ≠ cmp.signals.length
        · rw [if_pos hcnt]
          exact ⟨fun _ => ⟨_, rfl⟩, fun ci hok => by simp at hok⟩
        · rw [if_neg hcnt]
          push_neg at hcnt
          constructor
          · intro hne
            exact absurd (hslen ▸ hcnt) hne
          · intro ci hok
            by_cases hval : dom.uuid = 0 ∨ dom.name = ""
            · rw [if_pos hval] at hok
              simp at hok
            · rw [if_neg hval] at hok
              injection hok with hh
              subst hh
              refine ⟨rfl, ?_, ?_, ?_⟩
              · intro t ht
                rcases hmem t ht with habs | hlib
                · simp at habs
                · exact hlib.1
              · exact hsnd
              · have hsub : sigs.map (fun t => t.compSignal.uuid) ⊆
                    cmp.signals.map (fun cs => cs.uuid) := by
                  intro k hk
                  obtain ⟨t, ht, hte⟩ := List.mem_map.mp hk
                  rcases hmem t ht with habs | hlib
                  · simp at habs
                  · exact List.mem_map.mpr ⟨t.compSignal, hlib.1, hte⟩
                have hs : List.Subperm (sigs.map (fun t => t.compSignal.uuid))
                    (cmp.signals.map (fun cs => cs.uuid)) :=
                  List.subperm_of_subset hsnd hsub
                exact hs.perm_of_length_le (by simp [hcnt])

theorem componentInstance_fromDom_signalMap_witness :
    c9Lib.find? (fun c => c.uuid == c9Dom.component) = some c9Cmp ∧
    ((¬(c9Dom.signalMap.map (fun en => en.compSignal)).Nodup →
      ∃ m, ComponentInstance.fromDom idSubst 1 c9Lib c9Nets c9Dom =
        .error (.runtimeError m)) ∧
    (c9Dom.signalMap.length ≠ c9Cmp.signals.length →
      ∃ m, ComponentInstance.fromDom idSubst 1 c9Lib c9Nets c9Dom =
        .error (.runtimeError m)) ∧
    (∀ ci, ComponentInstance.fromDom idSubst 1 c9Lib c9Nets c9Dom = .ok ci →
      ci.libComponent = c9Cmp ∧
      (∀ t ∈ ci.signals, t.compSignal ∈ c9Cmp.signals) ∧
      (ci.signals.map (fun t => t.compSignal.uuid)).Nodup ∧
      List.Perm (ci.signals.map (fun t => t.compSignal.uuid))
        (c9Cmp.signals.map (fun cs => cs.uuid)))) :=
  ⟨by decide,
   componentInstance_fromDom_signalMap idSubst 1 c9Lib c9Nets c9Dom c9Cmp
     (by decide)⟩

end LibrePCB
